import Mathlib

/-!
Shallow embedding of the todo-list chat-agent backend.

Sources embedded (paths relative to the repository root):
  * `Phase-IV/backend/src/models/task.py` and `models/conversation.py` — the
    SQLModel entities `Task`, `Conversation`, `Message`.
  * `Phase-III/backend/src/services/task_service.py` — `TaskService`.
  * `Phase-III/backend/src/services/conversation_service.py` — the
    conversation store operations.
  * `Phase-IV/backend/src/services/agent_service.py` — `translate_mcp_error`,
    `AgentService._execute_tool`, `AgentService.process_user_message`.
  * `Phase-IV/backend/src/api/routes/chat.py` — `send_message`,
    `get_conversation_detail`.

Modelling conventions:
  * Opaque identifiers (UUIDs) are `Nat`; `uuid4()` draws from an explicit
    stream of fresh ids (`Env.ids`).
  * Wall-clock timestamps are `Nat` ticks.  Every `datetime.utcnow()` call in
    the Python source is a separate clock read and appears as a separate
    explicit argument (or a draw from `Env.times`).  A real clock makes the
    sequence of reads non-decreasing but neither strictly increasing nor
    constant, so theorems assume only monotonicity where they need it.
  * JSON payloads (tool parameters, tool results, persisted `tool_calls`) are
    the inductive `Json`; a Python `dict` is `Json.obj` over an association
    list.  Python `None` and JSON `null` are both `Json.null`.
  * Exceptions are `Except PyError`; `PyError.str` is Python's `str(e)`.
    Database-session state is threaded explicitly: an operation returns the
    new store together with its outcome, and every raising path of the
    sources leaves the store unchanged (the session is never committed on
    those paths).
  * The OpenAI chat-completion calls are oracles: functions from the built
    message context to a model message, passed in as parameters.
-/

set_option linter.unusedVariables false

namespace TodoApp

abbrev UserId := Nat
abbrev TaskId := Nat
abbrev ConvId := Nat
abbrev MsgId := Nat
abbrev Time := Nat

/-- JSON-ish values: Python dict/list/str/int/bool/None payloads as produced
by `json.loads` and consumed by `json.dumps`. -/
inductive Json where
  | null : Json
  | bool (b : Bool) : Json
  | num (n : Int) : Json
  | str (s : String) : Json
  | arr (elems : List Json) : Json
  | obj (fields : List (String × Json)) : Json
deriving Repr, BEq, Inhabited

/-- Association-list payload of a JSON object (a decoded Python dict). -/
abbrev Obj := List (String × Json)

/-- `d.get(k)` on a decoded JSON dict: absent keys give Python `None`,
modelled as `Json.null` (a stored JSON `null` also reads back as `None`). -/
def pyGet (params : Obj) (k : String) : Json :=
  match params.lookup k with
  | some v => v
  | none => Json.null

/-- `d.get(k, dflt)`: the default applies only when the key is absent. -/
def pyGetD (params : Obj) (k : String) (dflt : Json) : Json :=
  match params.lookup k with
  | some v => v
  | none => dflt

/-- Python truthiness of a JSON value (`if not x`). -/
def pyTruthy : Json → Bool
  | Json.null => false
  | Json.bool b => b
  | Json.num n => n != 0
  | Json.str s => s != ""
  | Json.arr xs => !xs.isEmpty
  | Json.obj fs => !fs.isEmpty

/-! Character-level string primitives.  The Python string methods the
sources use (`upper`, `lower`, `strip`, slicing, `in`, `int()` parsing) are
embedded as structural recursion over the character list, ASCII-faithful,
so that concrete runs evaluate inside the kernel. -/

def upperChar (c : Char) : Char :=
  if 97 ≤ c.toNat ∧ c.toNat ≤ 122 then Char.ofNat (c.toNat - 32) else c

def lowerChar (c : Char) : Char :=
  if 65 ≤ c.toNat ∧ c.toNat ≤ 90 then Char.ofNat (c.toNat + 32) else c

/-- Python `s.upper()`. -/
def pyUpper (s : String) : String := String.mk (s.data.map upperChar)

/-- Python `s.lower()`. -/
def pyLower (s : String) : String := String.mk (s.data.map lowerChar)

def isSpaceChar (c : Char) : Bool :=
  c == ' ' || c == '\t' || c == '\n' || c == '\r'

/-- Python `s.strip()` (ASCII whitespace). -/
def pyStrip (s : String) : String :=
  String.mk (((s.data.dropWhile isSpaceChar).reverse.dropWhile isSpaceChar).reverse)

/-- Python `s[:n]`. -/
def pyTake (s : String) (n : Nat) : String := String.mk (s.data.take n)

/-- Decimal digit run to a number; `none` unless the string is one or more
digits. -/
def pyToNat? (s : String) : Option Nat :=
  if s.data.isEmpty then none
  else if s.data.all (fun c => c.isDigit) then
    some (s.data.foldl (fun acc c => acc * 10 + (c.toNat - 48)) 0)
  else none

/-- Python `int(s)` after stripping: an optional minus sign and digits. -/
def pyToInt? (s : String) : Option Int :=
  match s.data with
  | '-' :: rest => (pyToNat? (String.mk rest)).map (fun n => -(n : Int))
  | _ => (pyToNat? s).map (fun n => (n : Int))

def isPrefixChars : List Char → List Char → Bool
  | [], _ => true
  | _ :: _, [] => false
  | c :: cs, d :: ds => c == d && isPrefixChars cs ds

def containsChars (needle : List Char) : List Char → Bool
  | [] => needle.isEmpty
  | c :: cs => isPrefixChars needle (c :: cs) || containsChars needle cs

/-- Python's `needle in haystack` on strings (case-sensitive substring). -/
def strContains (haystack needle : String) : Bool :=
  needle == "" || containsChars needle.data haystack.data

/-- Look a key up in a `Json.obj`; `none` on non-objects or absent keys. -/
def Json.getField : Json → String → Option Json
  | Json.obj fs, k => fs.lookup k
  | _, _ => none

/-- Python exception values; `str` is what `str(e)` yields. -/
inductive PyError where
  | valueError (msg : String) : PyError
  | dbError (msg : String) : PyError
  | other (msg : String) : PyError
deriving Repr, DecidableEq

def PyError.str : PyError → String
  | PyError.valueError m => m
  | PyError.dbError m => m
  | PyError.other m => m

/-- `agent_service.translate_mcp_error`: maps MCP error codes to the six
user-facing strings, by case-insensitive keyword matching on the code. -/
def translate_mcp_error (error_code : String) (error_message : String) : String :=
  let error_code_upper := pyUpper error_code
  if strContains error_code_upper "AUTHENTICATION" || strContains error_code_upper "UNAUTHORIZED" then
    "Your authentication token expired. Please log in again."
  else if strContains error_code_upper "AUTHORIZATION" || strContains error_code_upper "FORBIDDEN" then
    "I don't see that task in your list."
  else if strContains error_code_upper "NOT_FOUND" || strContains error_code_upper "NOT FOUND" then
    "I couldn't find the task you're looking for."
  else if strContains error_code_upper "VALIDATION" || strContains error_code_upper "BAD REQUEST" then
    "That doesn't seem right. Can you try again?"
  else if strContains error_code_upper "DATABASE" || strContains error_code_upper "CONNECTION" then
    "I'm having trouble reaching the database. Please try again in a moment."
  else
    "Something went wrong. Please try again later."

/-- `models/task.py` `Task`: both timestamp columns carry their own
`default_factory=datetime.utcnow`, so creation performs two clock reads. -/
structure Task where
  id : TaskId
  user_id : UserId
  title : String
  description : Option String
  is_completed : Bool
  created_at : Time
  updated_at : Time
deriving Repr, DecidableEq

/-- `models/conversation.py` `MessageRole`. -/
inductive MessageRole where
  | user : MessageRole
  | assistant : MessageRole
deriving Repr, DecidableEq

def MessageRole.value : MessageRole → String
  | MessageRole.user => "user"
  | MessageRole.assistant => "assistant"

/-- `models/conversation.py` `Conversation` (two creation-time clock reads,
one per timestamp default factory). -/
structure Conversation where
  id : ConvId
  user_id : UserId
  title : Option String
  created_at : Time
  updated_at : Time
deriving Repr, DecidableEq

/-- `models/conversation.py` `Message`; `tool_calls` is the optional JSON
column holding the recorded tool invocations. -/
structure Message where
  id : MsgId
  conversation_id : ConvId
  user_id : UserId
  role : MessageRole
  content : String
  tool_calls : Option Json
  created_at : Time
deriving Repr

/-- The relational store: the rows of the three tables, in insertion order. -/
structure Store where
  tasks : List Task
  convs : List Conversation
  msgs : List Message
deriving Repr

/-- Replace the first list element satisfying `p` by its image under `f`
(the ORM mutates the single row returned by `.first()`). -/
def updateFirst (p : α → Bool) (f : α → α) : List α → List α
  | [] => []
  | x :: xs => if p x then f x :: xs else x :: updateFirst p f xs

/-- Remove the first list element satisfying `p` (`session.delete` of the
row returned by `.first()`). -/
def removeFirst (p : α → Bool) : List α → List α
  | [] => []
  | x :: xs => if p x then xs else x :: removeFirst p xs

/-- Stable insertion: `le b a` means `b` sorts before (or ties with) `a`. -/
def insertByLe (le : α → α → Bool) (a : α) : List α → List α
  | [] => [a]
  | b :: bs => if le b a then b :: insertByLe le a bs else a :: b :: bs

/-- Stable sort by the given before-or-ties relation (models SQL ORDER BY). -/
def sortByLe (le : α → α → Bool) (l : List α) : List α :=
  l.foldr (insertByLe le) []

/-- `task_service.task_to_dict`: the dict sent back to the agent.  The
`isoformat()` rendering of a timestamp is modelled as `toString` of its
tick. -/
def task_to_dict (t : Task) : Json :=
  Json.obj
    [ ("id", Json.str (toString t.id))
    , ("title", Json.str t.title)
    , ("description", match t.description with
        | some d => Json.str d
        | none => Json.null)
    , ("is_completed", Json.bool t.is_completed)
    , ("created_at", Json.str (toString t.created_at))
    , ("updated_at", Json.str (toString t.updated_at)) ]

namespace TaskService

/-- `TaskService.create_task`.  `newId` is the `uuid4()` default of the `id`
column; `now_created`/`now_updated` are the two `datetime.utcnow()` reads
performed by the two timestamp default factories, in that order. -/
def create_task (s : Store) (user_id : UserId) (title : String)
    (description : Option String) (newId : TaskId)
    (now_created now_updated : Time) : Store × Except PyError Json :=
  if pyStrip title == "" then
    (s, Except.error (PyError.valueError "Title is required and cannot be empty"))
  else
    let title := pyStrip title
    if title.length > 255 then
      (s, Except.error (PyError.valueError "Title must be 255 characters or less"))
    else
      let task : Task :=
        { id := newId, user_id := user_id, title := title,
          description := description, is_completed := false,
          created_at := now_created, updated_at := now_updated }
      ({ s with tasks := s.tasks ++ [task] }, Except.ok (task_to_dict task))

/-- The dict `TaskService.get_tasks` returns, field for field. -/
structure GetTasksResult where
  success : Bool
  tasks : List Json
  page : Int
  page_size : Int
  total : Nat
  total_pages : Nat
deriving Repr

def GetTasksResult.toJson (r : GetTasksResult) : Json :=
  Json.obj
    [ ("success", Json.bool r.success)
    , ("tasks", Json.arr r.tasks)
    , ("page", Json.num r.page)
    , ("page_size", Json.num r.page_size)
    , ("total", Json.num r.total)
    , ("total_pages", Json.num r.total_pages) ]

/-- `TaskService.get_tasks`: user-scoped, optionally filtered by completion,
ordered by `created_at` descending, paginated.  Out-of-range `page` is
clamped to 1 and out-of-range `page_size` to 20 — the source clamps, it does
not raise. -/
def get_tasks (s : Store) (user_id : UserId) (completed : Option Bool)
    (page page_size : Int) : GetTasksResult :=
  let page := if page < 1 then 1 else page
  let page_size := if page_size < 1 || page_size > 100 then 20 else page_size
  let offset := ((page - 1) * page_size).toNat
  let filtered := s.tasks.filter (fun t =>
    t.user_id == user_id &&
      (match completed with
       | none => true
       | some c => t.is_completed == c))
  let ordered := sortByLe (fun u t => u.created_at ≥ t.created_at) filtered
  let total := filtered.length
  let selected := (ordered.drop offset).take page_size.toNat
  { success := true
  , tasks := selected.map task_to_dict
  , page := page
  , page_size := page_size
  , total := total
  , total_pages := if total > 0 then (total + page_size.toNat - 1) / page_size.toNat else 0 }

/-- `TaskService._get_user_task`'s query: the first task whose id and owner
both match.  The service raises
`"Task {task_id} not found or access denied."` when this is `none`. -/
def get_user_task (s : Store) (user_id : UserId) (task_id : TaskId) : Option Task :=
  s.tasks.find? (fun t => t.id == task_id && t.user_id == user_id)

def task_not_found_message (task_id : TaskId) : String :=
  "Task " ++ toString task_id ++ " not found or access denied."

/-- `TaskService.complete_task`: refuses an already-completed task, else
sets the flag and refreshes `updated_at` with a fresh clock read. -/
def complete_task (s : Store) (user_id : UserId) (task_id : TaskId)
    (now : Time) : Store × Except PyError Json :=
  match get_user_task s user_id task_id with
  | none => (s, Except.error (PyError.valueError (task_not_found_message task_id)))
  | some task =>
    if task.is_completed then
      (s, Except.error (PyError.valueError
        ("Task " ++ toString task_id ++ " is already completed.")))
    else
      let task' := { task with is_completed := true, updated_at := now }
      ({ s with tasks := (updateFirst
          (fun t => t.id == task_id && t.user_id == user_id)
          (fun t => { t with is_completed := true, updated_at := now }) s.tasks) },
       Except.ok (Json.obj
         [ ("success", Json.bool true)
         , ("task_id", Json.str (toString task_id))
         , ("message", Json.str "Task marked as completed.")
         , ("task", task_to_dict task') ]))

/-- The field updates `TaskService.update_task` applies after its title
validation: description and completion flag, then the freshness bump. -/
def apply_update (task : Task) (updatedT : Bool) (description : Option String)
    (is_completed : Option Bool) : Task × Bool :=
  let (task, updated) :=
    match description with
    | some d => ({ task with description := some d }, true)
    | none => (task, updatedT)
  match is_completed with
  | some b => ({ task with is_completed := b }, true)
  | none => (task, updated)

/-- `TaskService.update_task`: partial update of title/description/completion,
requiring at least one field; never consults the current completion state. -/
def update_task (s : Store) (user_id : UserId) (task_id : TaskId)
    (title description : Option String) (is_completed : Option Bool)
    (now : Time) : Store × Except PyError Json :=
  match get_user_task s user_id task_id with
  | none => (s, Except.error (PyError.valueError (task_not_found_message task_id)))
  | some task =>
    let titled : Except PyError (Task × Bool) :=
      match title with
      | none => Except.ok (task, false)
      | some ttl =>
        let stripped := pyStrip ttl
        if stripped == "" then
          Except.error (PyError.valueError "Title cannot be empty.")
        else if stripped.length > 255 then
          Except.error (PyError.valueError "Title must be 255 characters or less.")
        else
          Except.ok ({ task with title := stripped }, true)
    match titled with
    | Except.error e => (s, Except.error e)
    | Except.ok (task, updatedT) =>
      let (task, updated) := apply_update task updatedT description is_completed
      if !updated then
        (s, Except.error (PyError.valueError "No valid fields provided to update."))
      else
        let task := { task with updated_at := now }
        ({ s with tasks := (updateFirst
            (fun t => t.id == task_id && t.user_id == user_id)
            (fun _ => task) s.tasks) },
         Except.ok (task_to_dict task))

/-- `TaskService.delete_task`: hard delete of the owner-scoped row. -/
def delete_task (s : Store) (user_id : UserId) (task_id : TaskId) :
    Store × Except PyError Json :=
  match get_user_task s user_id task_id with
  | none => (s, Except.error (PyError.valueError (task_not_found_message task_id)))
  | some _ =>
    ({ s with tasks := (removeFirst
        (fun t => t.id == task_id && t.user_id == user_id) s.tasks) },
     Except.ok (Json.obj
       [ ("success", Json.bool true)
       , ("task_id", Json.str (toString task_id))
       , ("message", Json.str "Task deleted successfully.") ]))

end TaskService

namespace ConversationService

/-- `conversation_service.create_conversation`; `now_created`/`now_updated`
are the two timestamp default-factory reads. -/
def create_conversation (s : Store) (user_id : UserId) (title : Option String)
    (newId : ConvId) (now_created now_updated : Time) : Store × Conversation :=
  let conversation : Conversation :=
    { id := newId, user_id := user_id, title := title,
      created_at := now_created, updated_at := now_updated }
  ({ s with convs := s.convs ++ [conversation] }, conversation)

/-- `conversation_service.get_conversation`: owner-scoped `.first()`. -/
def get_conversation (s : Store) (conversation_id : ConvId) (user_id : UserId) :
    Option Conversation :=
  s.convs.find? (fun c => c.id == conversation_id && c.user_id == user_id)

/-- `conversation_service.verify_user_owns_conversation`. -/
def verify_user_owns_conversation (s : Store) (conversation_id : ConvId)
    (user_id : UserId) : Bool :=
  (get_conversation s conversation_id user_id).isSome

/-- `conversation_service.add_message`: validates content, checks the
owner-scoped conversation, then inserts the message and bumps the parent
conversation's `updated_at` in one commit.  `now_message` is the message's
`created_at` default-factory read, `now_conv` the explicit
`datetime.utcnow()` assigned to the conversation (read after it). -/
def add_message (s : Store) (conversation_id : ConvId) (user_id : UserId)
    (role : MessageRole) (content : String) (tool_calls : Option Json)
    (msgId : MsgId) (now_message now_conv : Time) :
    Store × Except PyError Message :=
  let content := pyStrip content
  if content == "" then
    (s, Except.error (PyError.valueError "Message content cannot be empty"))
  else if content.length > 50000 then
    (s, Except.error (PyError.valueError
      "Message content exceeds maximum length of 50000 characters"))
  else
    match get_conversation s conversation_id user_id with
    | none =>
      (s, Except.error (PyError.valueError
        "Conversation not found or user not authorized"))
    | some _ =>
      let message : Message :=
        { id := msgId, conversation_id := conversation_id, user_id := user_id,
          role := role, content := content, tool_calls := tool_calls,
          created_at := now_message }
      ({ s with
          msgs := s.msgs ++ [message],
          convs := (updateFirst
            (fun c => c.id == conversation_id && c.user_id == user_id)
            (fun c => { c with updated_at := now_conv }) s.convs) },
       Except.ok message)

/-- `conversation_service.get_conversation_messages`: the conversation's
messages ascending by `created_at`, then offset/limit.  (The source scopes
this query by conversation id only; callers authorize first.) -/
def get_conversation_messages (s : Store) (conversation_id : ConvId)
    (limit offset : Nat) : List Message :=
  let filtered := s.msgs.filter (fun m => m.conversation_id == conversation_id)
  ((sortByLe (fun a b => a.created_at ≤ b.created_at) filtered).drop offset).take limit

/-- `conversation_service.list_conversations`: the user's conversations
ordered by `updated_at` descending, with the total count. -/
def list_conversations (s : Store) (user_id : UserId) (limit offset : Nat) :
    List Conversation × Nat :=
  let mine := s.convs.filter (fun c => c.user_id == user_id)
  let ordered := sortByLe (fun a b => a.updated_at ≥ b.updated_at) mine
  (((ordered.drop offset).take limit), mine.length)

end ConversationService

/-- Generator state for the effectful defaults of the ORM layer: `ids` is
the stream of `uuid4()` draws, `times` the stream of `datetime.utcnow()`
reads taken inside the request (beyond the ones passed explicitly). -/
structure Env where
  ids : List Nat
  times : List Time
deriving Repr

def Env.takeId (e : Env) : Nat × Env :=
  (e.ids.headD 0, { ids := e.ids.tail, times := e.times })

def Env.takeTime (e : Env) : Time × Env :=
  (e.times.headD 0, { ids := e.ids, times := e.times.tail })

/-- Python's `str(v)` for the JSON scalars relevant here. -/
def asPyStr : Json → Option String
  | Json.str s => some s
  | _ => none

/-- `int(v)` on a decoded JSON value. -/
def pyInt : Json → Except PyError Int
  | Json.num n => Except.ok n
  | Json.bool b => Except.ok (if b then 1 else 0)
  | Json.str s =>
    match pyToInt? (pyStrip s) with
    | some n => Except.ok n
    | none => Except.error (PyError.valueError
        ("invalid literal for int() with base 10: " ++ s))
  | Json.null => Except.error (PyError.other
      "int() argument must be a string, a bytes-like object or a real number, not NoneType")
  | _ => Except.error (PyError.other
      "int() argument must be a string, a bytes-like object or a real number")

/-- `UUID(task_id_str)`: ids being opaque `Nat`s, a well-formed UUID string
is a decimal rendering; anything else raises as `UUID()` does. -/
def parseUUID : Json → Except PyError Nat
  | Json.str s =>
    match pyToNat? s with
    | some n => Except.ok n
    | none => Except.error (PyError.valueError "badly formed hexadecimal UUID string")
  | _ => Except.error (PyError.other
      "one of the hex, bytes, bytes_le, fields, or int arguments must be given")

/-- The `completed` / `is_completed` parameter coercion of
`AgentService._execute_tool`: strings are compared to `"true"`
case-insensitively, `null`/absent stays `None`, booleans pass through
(other JSON scalars reach the boolean column comparison by truthiness). -/
def coerceCompleted : Json → Option Bool
  | Json.null => none
  | Json.str s => some (pyLower s == "true")
  | Json.bool b => some b
  | v => some (pyTruthy v)

/-- The optional string parameters (`title`, `description`) as
`_execute_tool` hands them to `TaskService`: `null`/absent is `None`. -/
def coerceOptStr : Json → Option String
  | Json.str s => some s
  | _ => none

/-- Body of `AgentService._execute_tool`'s `try:` block: dispatch on the
tool name and delegate to `TaskService`.  An `Except.error` is an exception
flying out of the block; every such path leaves the store unchanged. -/
def execute_tool_inner (s : Store) (env : Env) (tool_name : String)
    (parameters : Obj) (user_id : UserId) :
    Except PyError (Store × Env × Json) :=
  if tool_name == "add_task" then
    let title := pyGet parameters "title"
    if !pyTruthy title then
      Except.error (PyError.valueError "Title is required for add_task")
    else
      match asPyStr title with
      | none => Except.error (PyError.other
          "AttributeError: object has no attribute strip")
      | some titleStr =>
        let description := coerceOptStr (pyGet parameters "description")
        let (newId, env) := env.takeId
        let (n1, env) := env.takeTime
        let (n2, env) := env.takeTime
        let r := TaskService.create_task s user_id titleStr description newId n1 n2
        match r.2 with
        | Except.error e => Except.error e
        | Except.ok task_dict => Except.ok (r.1, env, task_dict)
  else if tool_name == "list_tasks" then
    let completedRaw := pyGet parameters "completed"
    let completed := coerceCompleted completedRaw
    match pyInt (pyGetD parameters "page" (Json.num 1)) with
    | Except.error e => Except.error e
    | Except.ok page =>
      match pyInt (pyGetD parameters "page_size" (Json.num 20)) with
      | Except.error e => Except.error e
      | Except.ok page_size =>
        Except.ok (s, env,
          (TaskService.get_tasks s user_id completed page page_size).toJson)
  else if tool_name == "complete_task" then
    let task_id_str := pyGet parameters "task_id"
    if !pyTruthy task_id_str then
      Except.error (PyError.valueError "task_id is required for complete_task")
    else
      match parseUUID task_id_str with
      | Except.error e => Except.error e
      | Except.ok task_id =>
        let (now, env) := env.takeTime
        let r := TaskService.complete_task s user_id task_id now
        match r.2 with
        | Except.error e => Except.error e
        | Except.ok result => Except.ok (r.1, env, result)
  else if tool_name == "update_task" then
    let task_id_str := pyGet parameters "task_id"
    if !pyTruthy task_id_str then
      Except.error (PyError.valueError "task_id is required for update_task")
    else
      match parseUUID task_id_str with
      | Except.error e => Except.error e
      | Except.ok task_id =>
        let title := coerceOptStr (pyGet parameters "title")
        let description := coerceOptStr (pyGet parameters "description")
        let is_completed := coerceCompleted (pyGet parameters "is_completed")
        let (now, env) := env.takeTime
        let r := TaskService.update_task s user_id task_id title description is_completed now
        match r.2 with
        | Except.error e => Except.error e
        | Except.ok result => Except.ok (r.1, env, result)
  else if tool_name == "delete_task" then
    let task_id_str := pyGet parameters "task_id"
    if !pyTruthy task_id_str then
      Except.error (PyError.valueError "task_id is required for delete_task")
    else
      match parseUUID task_id_str with
      | Except.error e => Except.error e
      | Except.ok task_id =>
        let r := TaskService.delete_task s user_id task_id
        match r.2 with
        | Except.error e => Except.error e
        | Except.ok result => Except.ok (r.1, env, result)
  else
    Except.error (PyError.valueError ("Unknown tool: " ++ tool_name))

/-- The `{"success": False, "error": str(e)}` mapping the executor's
catch-all returns — `error_msg` is the raw `str(e)`. -/
def errorResult (error_msg : String) : Json :=
  Json.obj [("success", Json.bool false), ("error", Json.str error_msg)]

/-- `AgentService._execute_tool`: the `try:` body with its catch-all
`except Exception` — every exception becomes a `{"success": False,
"error": str(e)}` result, so this function is total and never raises. -/
def execute_tool (s : Store) (env : Env) (tool_name : String)
    (parameters : Obj) (user_id : UserId) : Store × Env × Json :=
  match execute_tool_inner s env tool_name parameters user_id with
  | Except.ok r => r
  | Except.error e => (s, env, errorResult e.str)

/-- One tool call requested by the model: `id` is OpenAI's call id, `name`
the function name, and `arguments` the outcome of
`json.loads(tool_call.function.arguments)` — `none` models an argument
string that does not parse as a JSON object, on which `json.loads` raises. -/
structure ModelToolCall where
  id : String
  name : String
  arguments : Option Obj
deriving Repr

/-- The first chat-completion's message: text content and requested tool
calls (the empty list models `message.tool_calls` being `None`). -/
structure ModelMessage where
  content : Option String
  tool_calls : List ModelToolCall
deriving Repr

/-- An entry of the `messages` list the orchestrator builds for the model.
A tool-result entry carries the value serialized by `json.dumps(result)`. -/
inductive CtxMsg where
  | system (content : String) : CtxMsg
  | user (content : String) : CtxMsg
  | assistantText (content : String) : CtxMsg
  | assistantToolCall (content : String) (call_id : String) (name : String)
      (arguments : Option Obj) : CtxMsg
  | toolResult (tool_call_id : String) (content : Json) : CtxMsg
deriving Repr

/-- One entry of the orchestrator's `tool_calls_data` list (§spec
ToolInvocationRecord): tool name, decoded parameters, result mapping. -/
structure ToolInvocationRecord where
  tool : String
  parameters : Obj
  result : Json
deriving Repr

/-- Outcome of the tool-execution loop: the session state, context and
records accumulated so far, and — when `json.loads` raised on some call's
arguments — the exception aborting `process_user_message`. -/
structure RunResult where
  store : Store
  env : Env
  ctx : List CtxMsg
  records : List ToolInvocationRecord
  err : Option PyError
deriving Repr

/-- The `str(e)` of `json.JSONDecodeError` (a `ValueError` subclass). -/
def json_decode_error : PyError :=
  PyError.valueError "Expecting value: line 1 column 1 (char 0)"

/-- The `for tool_call in message.tool_calls:` loop of
`AgentService.process_user_message`: decode arguments (raising aborts the
whole run — `json.loads` sits before the `try:`), execute via the total
`execute_tool`, record the invocation, and feed the result back as a
tool-role message; then continue with the remaining calls regardless of
this call's outcome. -/
def runCalls (s : Store) (env : Env) (ctx : List CtxMsg) (user_id : UserId)
    (assistant_content : String) :
    List ModelToolCall → List ToolInvocationRecord → RunResult
  | [], acc => { store := s, env := env, ctx := ctx, records := acc, err := none }
  | c :: rest, acc =>
    match c.arguments with
    | none => { store := s, env := env, ctx := ctx, records := acc,
                err := some json_decode_error }
    | some params =>
      let (s', env', result) := execute_tool s env c.name params user_id
      runCalls s' env'
        (ctx ++ [ CtxMsg.assistantToolCall assistant_content c.id c.name c.arguments
                , CtxMsg.toolResult c.id result ])
        user_id assistant_content rest
        (acc ++ [{ tool := c.name, parameters := params, result := result }])

/-- The system prompt (its full instruction text is inert natural language;
abbreviated to its opening line). -/
def system_prompt : String :=
  "You are a friendly and helpful task management assistant."

/-- Context construction of `process_user_message`: system prompt, the last
10 history messages as role/content pairs (tool metadata stripped), then
the new user message. -/
def build_context (history : List Message) (user_message : String) : List CtxMsg :=
  [CtxMsg.system system_prompt]
    ++ (history.drop (history.length - 10)).map (fun m =>
        match m.role with
        | MessageRole.user => CtxMsg.user m.content
        | MessageRole.assistant => CtxMsg.assistantText m.content)
    ++ [CtxMsg.user user_message]

/-- What `process_user_message` returns: the agent's text and the recorded
tool invocations. -/
structure AgentResult where
  content : String
  tool_calls : List ToolInvocationRecord
deriving Repr

/-- `AgentService.process_user_message`.  The two OpenAI calls are oracles:
`llm` answers the first completion (with tools offered), `llm_final` the
follow-up completion after tool execution (its `message.content`).
`Except.error` is an exception escaping the method. -/
def process_user_message (s : Store) (env : Env) (user_message : String)
    (conversation_history : List Message) (user_id : UserId)
    (llm : List CtxMsg → ModelMessage)
    (llm_final : List CtxMsg → Option String) :
    Store × Env × Except PyError AgentResult :=
  let messages := build_context conversation_history user_message
  let message := llm messages
  if message.tool_calls.isEmpty then
    (s, env, Except.ok
      { content := message.content.getD "I'm here to help with your tasks!"
      , tool_calls := [] })
  else
    let r := runCalls s env messages user_id (message.content.getD "")
      message.tool_calls []
    match r.err with
    | some e => (r.store, r.env, Except.error e)
    | none =>
      (r.store, r.env, Except.ok
        { content := (llm_final r.ctx).getD "I've completed the action."
        , tool_calls := r.records })

/-- An HTTP error response (`HTTPException`): status code and detail. -/
structure HttpError where
  status : Nat
  detail : String
deriving Repr, DecidableEq

/-- The `{conversation_id, user_message, agent_response}` body of a
successful `POST /api/chat`. -/
structure ChatResponse where
  conversation_id : ConvId
  user_message_id : MsgId
  user_message_content : String
  agent_content : String
  agent_tool_calls : Option (List ToolInvocationRecord)
deriving Repr

/-- One record of a persisted `tool_calls` column entry. -/
def record_to_json (r : ToolInvocationRecord) : Json :=
  Json.obj
    [ ("tool", Json.str r.tool)
    , ("parameters", Json.obj r.parameters)
    , ("result", r.result) ]

/-- The `except`-ladder of the chat route: `ValueError` becomes 400 with
the exception text, database errors 500 with the connectivity message,
anything else 500 with the generic message. -/
def pyErrToHttp : PyError → HttpError
  | PyError.valueError m => { status := 400, detail := m }
  | PyError.dbError _ =>
    { status := 500
    , detail := "I'm having trouble connecting to the database. This might be temporary. Please try again in a moment." }
  | PyError.other _ =>
    { status := 500, detail := "Failed to process chat message. Please try again." }

/-- `routes/chat.py send_message` after conversation resolution: load up to
100 history messages, persist the inbound user message, invoke the agent,
persist the assistant message with its tool calls, build the response. -/
def send_message_core (s : Store) (env : Env) (conversation_id : ConvId)
    (message : String) (user_id : UserId)
    (llm : List CtxMsg → ModelMessage)
    (llm_final : List CtxMsg → Option String) :
    Store × Except HttpError ChatResponse :=
  let history := ConversationService.get_conversation_messages s conversation_id 100 0
  let (msgId, env) := env.takeId
  let (nm, env) := env.takeTime
  let (nc, env) := env.takeTime
  match ConversationService.add_message s conversation_id user_id
      MessageRole.user message none msgId nm nc with
  | (s, Except.error e) => (s, Except.error (pyErrToHttp e))
  | (s, Except.ok user_message) =>
    match process_user_message s env message history user_id llm llm_final with
    | (s, _, Except.error e) => (s, Except.error (pyErrToHttp e))
    | (s, env, Except.ok agent_result) =>
      let tool_calls_json : Option Json :=
        if agent_result.tool_calls.isEmpty then none
        else some (Json.obj
          [("calls", Json.arr (agent_result.tool_calls.map record_to_json))])
      let (aid, env) := env.takeId
      let (am, env) := env.takeTime
      let (ac, env) := env.takeTime
      match ConversationService.add_message s conversation_id user_id
          MessageRole.assistant agent_result.content tool_calls_json aid am ac with
      | (s, Except.error e) => (s, Except.error (pyErrToHttp e))
      | (s, Except.ok assistant_message) =>
        (s, Except.ok
          { conversation_id := conversation_id
          , user_message_id := user_message.id
          , user_message_content := user_message.content
          , agent_content := assistant_message.content
          , agent_tool_calls :=
              if agent_result.tool_calls.isEmpty then none
              else some agent_result.tool_calls })

/-- `routes/chat.py send_message` (`POST /api/chat`): validate the message,
resolve or create the conversation (a foreign or unknown `conversation_id`
is rejected 404 before anything is persisted), then `send_message_core`. -/
def send_message (s : Store) (env : Env) (conversation_id : Option ConvId)
    (message : String) (user_id : UserId)
    (llm : List CtxMsg → ModelMessage)
    (llm_final : List CtxMsg → Option String) :
    Store × Except HttpError ChatResponse :=
  if pyStrip message == "" then
    (s, Except.error
      { status := 400
      , detail := "I didn't catch that. What would you like to do with your tasks?" })
  else if message.length > 5000 then
    (s, Except.error
      { status := 400
      , detail := "That message is too long. Please use fewer than 5000 characters." })
  else
    match conversation_id with
    | some cid =>
      if ConversationService.verify_user_owns_conversation s cid user_id then
        send_message_core s env cid message user_id llm llm_final
      else
        (s, Except.error
          { status := 404, detail := "Conversation not found or access denied" })
    | none =>
      let title := if message.length > 50 then (pyTake message 50) ++ "..." else message
      let (newId, env) := env.takeId
      let (n1, env) := env.takeTime
      let (n2, env) := env.takeTime
      let (s, conversation) :=
        ConversationService.create_conversation s user_id (some title) newId n1 n2
      send_message_core s env conversation.id message user_id llm llm_final

/-- The body of a successful `GET /api/chat/{conversation_id}`. -/
structure ConversationDetail where
  id : ConvId
  title : String
  created_at : Time
  updated_at : Time
  messages : List Message
deriving Repr

/-- `routes/chat.py get_conversation_detail` (`GET /api/chat/{id}`): the
ownership check rejects 403 whenever the owner-scoped lookup misses, so the
404 branch below it is unreachable. -/
def get_conversation_detail (s : Store) (conversation_id : ConvId)
    (user_id : UserId) (limit offset : Nat) :
    Except HttpError ConversationDetail :=
  if !(ConversationService.verify_user_owns_conversation s conversation_id user_id) then
    Except.error
      { status := 403, detail := "Access denied: You do not own this conversation" }
  else
    match ConversationService.get_conversation s conversation_id user_id with
    | none => Except.error { status := 404, detail := "Conversation not found" }
    | some conversation =>
      Except.ok
        { id := conversation.id
        , title := conversation.title.getD "Untitled Conversation"
        , created_at := conversation.created_at
        , updated_at := conversation.updated_at
        , messages := ConversationService.get_conversation_messages s conversation_id limit offset }

/-! Concrete stores, environments and oracles used by the witness and
counterexample theorems below. -/

def empty_store : Store := { tasks := [], convs := [], msgs := [] }

def demo_env : Env := { ids := [100, 101, 102], times := [0, 0, 0, 0, 0, 0] }

def noop_llm : List CtxMsg → ModelMessage :=
  fun _ => { content := some "ok", tool_calls := [] }

def done_llm_final : List CtxMsg → Option String := fun _ => some "done"

/-- A model response whose second tool call carries arguments that are not
valid JSON (`json.loads` raises on them). -/
def c1_llm_bad : List CtxMsg → ModelMessage :=
  fun _ =>
    { content := none
    , tool_calls :=
        [ { id := "call_a", name := "add_task"
          , arguments := some [("title", Json.str "Task A")] }
        , { id := "call_b", name := "add_task", arguments := none } ] }

/-- Three decodable requested calls whose middle one fails at execution
(completing a task that does not exist). -/
def c1_calls_demo : List ModelToolCall :=
  [ { id := "call_1", name := "add_task"
    , arguments := some [("title", Json.str "Task A")] }
  , { id := "call_2", name := "complete_task"
    , arguments := some [("task_id", Json.str "999")] }
  , { id := "call_3", name := "add_task"
    , arguments := some [("title", Json.str "Task C")] } ]

/-- A model response requesting the three calls of `c1_calls_demo`. -/
def c1_llm_demo : List CtxMsg → ModelMessage :=
  fun _ => { content := none, tool_calls := c1_calls_demo }

def c2_call : ModelToolCall :=
  { id := "call_1", name := "complete_task"
  , arguments := some [("task_id", Json.str "7")] }

def c3_taskA : Task :=
  { id := 1, user_id := 1, title := "Task of user one", description := none,
    is_completed := false, created_at := 0, updated_at := 0 }

def c3_taskB : Task :=
  { id := 2, user_id := 2, title := "Task of user two", description := none,
    is_completed := false, created_at := 0, updated_at := 0 }

def c3_convB : Conversation :=
  { id := 3, user_id := 2, title := none, created_at := 0, updated_at := 0 }

def c3_store : Store := { tasks := [c3_taskA, c3_taskB], convs := [c3_convB], msgs := [] }

def c4_conv : Conversation :=
  { id := 1, user_id := 1, title := none, created_at := 0, updated_at := 0 }

def c4_store0 : Store := { tasks := [], convs := [c4_conv], msgs := [] }

def c4_store1 : Store :=
  (ConversationService.add_message c4_store0 1 1 MessageRole.user "hi" none 10 5 5).1

def c4_store2 : Store :=
  (ConversationService.add_message c4_store1 1 1 MessageRole.assistant "hello" none 11 5 5).1

def c5_store : Store :=
  { tasks := [], convs := [{ id := 1, user_id := 1, title := none, created_at := 0, updated_at := 0 }], msgs := [] }

def c5_env : Env := { ids := [20, 21], times := [3, 4, 5, 6] }

/-- An agent run whose single requested call has malformed arguments, so
`process_user_message` raises after context building. -/
def c5_llm_fail : List CtxMsg → ModelMessage :=
  fun _ =>
    { content := none
    , tool_calls := [{ id := "c", name := "add_task", arguments := none }] }

/-- Conversation 1 exists but belongs to user 2. -/
def c8_store : Store :=
  { tasks := [], convs := [{ id := 1, user_id := 2, title := none, created_at := 0, updated_at := 0 }], msgs := [] }

def c10_task : Task :=
  { id := 3, user_id := 1, title := "Finished task", description := none,
    is_completed := true, created_at := 0, updated_at := 0 }

def c10_store : Store := { tasks := [c10_task], convs := [], msgs := [] }

/-- The six user-facing strings of the Error Translator. -/
def user_facing_messages : List String :=
  [ "Your authentication token expired. Please log in again."
  , "I don't see that task in your list."
  , "I couldn't find the task you're looking for."
  , "That doesn't seem right. Can you try again?"
  , "I'm having trouble reaching the database. Please try again in a moment."
  , "Something went wrong. Please try again later." ]

/-- Literal internal kind tokens that must never leak into a user-facing
string. -/
def internal_tokens : List String :=
  [ "AUTHENTICATION_ERROR", "AUTHORIZATION_ERROR", "NOT_FOUND", "NOT_FOUND_ERROR"
  , "VALIDATION_ERROR", "DATABASE_ERROR", "403", "404"
  , "ValueError", "HTTPException", "Traceback" ]

/-- The keyword tests of `translate_mcp_error`, branch by branch. -/
def kw_auth (code : String) : Bool :=
  strContains (pyUpper code) "AUTHENTICATION" || strContains (pyUpper code) "UNAUTHORIZED"

def kw_authz (code : String) : Bool :=
  strContains (pyUpper code) "AUTHORIZATION" || strContains (pyUpper code) "FORBIDDEN"

def kw_not_found (code : String) : Bool :=
  strContains (pyUpper code) "NOT_FOUND" || strContains (pyUpper code) "NOT FOUND"

def kw_validation (code : String) : Bool :=
  strContains (pyUpper code) "VALIDATION" || strContains (pyUpper code) "BAD REQUEST"

def kw_database (code : String) : Bool :=
  strContains (pyUpper code) "DATABASE" || strContains (pyUpper code) "CONNECTION"

/-- Tasks of `s` owned by `u`, in insertion order. -/
def ownedTasks (s : Store) (u : UserId) : List Task :=
  s.tasks.filter (fun t => t.user_id == u)

/-- Conversations of `s` owned by `u`, in insertion order. -/
def ownedConvs (s : Store) (u : UserId) : List Conversation :=
  s.convs.filter (fun c => c.user_id == u)

/-- Messages of `s` owned by `u`, in insertion order. -/
def ownedMsgs (s : Store) (u : UserId) : List Message :=
  s.msgs.filter (fun m => m.user_id == u)

/-! Helper lemmas about the list combinators of the embedding. -/

theorem mem_insertByLe {le : α → α → Bool} {a x : α} {l : List α} :
    x ∈ insertByLe le a l ↔ x = a ∨ x ∈ l := by
  induction l with
  | nil => simp [insertByLe]
  | cons b bs ih =>
    by_cases h : le b a
    · simp only [insertByLe]
      rw [if_pos h]
      simp only [List.mem_cons, ih]
      tauto
    · simp only [insertByLe]
      rw [if_neg h]
      simp only [List.mem_cons]

theorem mem_sortByLe {le : α → α → Bool} {x : α} {l : List α} :
    x ∈ sortByLe le l ↔ x ∈ l := by
  induction l with
  | nil => simp [sortByLe]
  | cons b bs ih =>
    show x ∈ insertByLe le b (sortByLe le bs) ↔ _
    rw [mem_insertByLe]
    simp [ih]

theorem find?_updateFirst {p : α → Bool} {f : α → α} {l : List α} {a : α}
    (h : l.find? p = some a) (hf : p (f a) = true) :
    (updateFirst p f l).find? p = some (f a) := by
  induction l with
  | nil => simp [List.find?] at h
  | cons x xs ih =>
    by_cases hx : p x
    · rw [List.find?_cons_of_pos _ hx] at h
      cases h
      simp [updateFirst, hx, List.find?_cons_of_pos _ hf]
    · rw [List.find?_cons_of_neg _ hx] at h
      simp only [updateFirst]
      rw [if_neg hx]
      rw [List.find?_cons_of_neg _ hx]
      exact ih h

theorem find?_append_none {p : α → Bool} {l₁ l₂ : List α}
    (h : l₁.find? p = none) : (l₁ ++ l₂).find? p = l₂.find? p := by
  induction l₁ with
  | nil => simp
  | cons x xs ih =>
    by_cases hx : p x
    · rw [List.find?_cons_of_pos _ hx] at h
      cases h
    · rw [List.find?_cons_of_neg _ hx] at h
      simp only [List.cons_append]
      rw [List.find?_cons_of_neg _ hx]
      exact ih h

theorem filter_updateFirst {p q : α → Bool} {f : α → α} {l : List α}
    (h1 : ∀ x, p x = true → q x = false)
    (h2 : ∀ x, p x = true → q (f x) = false) :
    (updateFirst p f l).filter q = l.filter q := by
  induction l with
  | nil => rfl
  | cons x xs ih =>
    by_cases hx : p x
    · simp only [updateFirst]
      rw [if_pos hx, List.filter_cons, List.filter_cons, h1 x hx, h2 x hx]
      simp
    · simp only [updateFirst]
      rw [if_neg hx, List.filter_cons, List.filter_cons, ih]

theorem filter_removeFirst {p q : α → Bool} {l : List α}
    (h1 : ∀ x, p x = true → q x = false) :
    (removeFirst p l).filter q = l.filter q := by
  induction l with
  | nil => rfl
  | cons x xs ih =>
    by_cases hx : p x
    · simp only [removeFirst]
      rw [if_pos hx, List.filter_cons, h1 x hx]
      simp
    · simp only [removeFirst]
      rw [if_neg hx, List.filter_cons, List.filter_cons, ih]

/-! Frame lemmas: the task-store operations never touch the conversation or
message tables, and each store operation leaves the store unchanged on every
raising path. -/

@[simp]
theorem create_task_msgs (s : Store) (u : UserId) (t : String) (d : Option String)
    (i : TaskId) (a b : Time) :
    ((TaskService.create_task s u t d i a b).1).msgs = s.msgs := by
  unfold TaskService.create_task
  dsimp only
  split_ifs <;> rfl

@[simp]
theorem create_task_convs (s : Store) (u : UserId) (t : String) (d : Option String)
    (i : TaskId) (a b : Time) :
    ((TaskService.create_task s u t d i a b).1).convs = s.convs := by
  unfold TaskService.create_task
  dsimp only
  split_ifs <;> rfl

@[simp]
theorem complete_task_msgs (s : Store) (u : UserId) (tid : TaskId) (now : Time) :
    ((TaskService.complete_task s u tid now).1).msgs = s.msgs := by
  unfold TaskService.complete_task
  dsimp only
  split
  · rfl
  · split_ifs <;> rfl

@[simp]
theorem complete_task_convs (s : Store) (u : UserId) (tid : TaskId) (now : Time) :
    ((TaskService.complete_task s u tid now).1).convs = s.convs := by
  unfold TaskService.complete_task
  dsimp only
  split
  · rfl
  · split_ifs <;> rfl

@[simp]
theorem update_task_msgs (s : Store) (u : UserId) (tid : TaskId)
    (ttl dsc : Option String) (ic : Option Bool) (now : Time) :
    ((TaskService.update_task s u tid ttl dsc ic now).1).msgs = s.msgs := by
  unfold TaskService.update_task
  repeat' (first | split | dsimp only)

@[simp]
theorem update_task_convs (s : Store) (u : UserId) (tid : TaskId)
    (ttl dsc : Option String) (ic : Option Bool) (now : Time) :
    ((TaskService.update_task s u tid ttl dsc ic now).1).convs = s.convs := by
  unfold TaskService.update_task
  repeat' (first | split | dsimp only)

@[simp]
theorem delete_task_msgs (s : Store) (u : UserId) (tid : TaskId) :
    ((TaskService.delete_task s u tid).1).msgs = s.msgs := by
  unfold TaskService.delete_task
  split <;> rfl

@[simp]
theorem delete_task_convs (s : Store) (u : UserId) (tid : TaskId) :
    ((TaskService.delete_task s u tid).1).convs = s.convs := by
  unfold TaskService.delete_task
  split <;> rfl

@[simp]
theorem get_tasks_success (s : Store) (u : UserId) (c : Option Bool) (pg ps : Int) :
    (TaskService.get_tasks s u c pg ps).success = true := rfl

/-- The executor's `try:` body only ever touches the task table. -/
theorem execute_tool_inner_frame {s : Store} {env : Env} {n : String} {p : Obj}
    {u : UserId} {s' : Store} {env' : Env} {j : Json}
    (h : execute_tool_inner s env n p u = Except.ok (s', env', j)) :
    s'.msgs = s.msgs ∧ s'.convs = s.convs := by
  unfold execute_tool_inner at h
  simp only [] at h
  repeat' split at h
  all_goals (try simp_all)
  all_goals (obtain ⟨rfl, rfl, rfl⟩ := h; constructor <;> simp)

/-! Result-shape lemmas for the executor: a successful tool execution never
produces a mapping flagged `success: false`, and the catch-all turns every
exception into exactly `{"success": False, "error": str(e)}`. -/

theorem create_task_ok_success {s : Store} {u : UserId} {t : String}
    {d : Option String} {i : TaskId} {a b : Time} {j : Json}
    (h : (TaskService.create_task s u t d i a b).2 = Except.ok j) :
    j.getField "success" = none := by
  unfold TaskService.create_task at h
  try dsimp only at h
  split_ifs at h <;> simp_all
  subst h
  rfl

theorem complete_task_ok_success {s : Store} {u : UserId} {tid : TaskId}
    {now : Time} {j : Json}
    (h : (TaskService.complete_task s u tid now).2 = Except.ok j) :
    j.getField "success" = some (Json.bool true) := by
  unfold TaskService.complete_task at h
  try dsimp only at h
  repeat' split at h
  all_goals simp_all
  subst h
  rfl

theorem update_task_ok_success {s : Store} {u : UserId} {tid : TaskId}
    {ttl dsc : Option String} {ic : Option Bool} {now : Time} {j : Json}
    (h : (TaskService.update_task s u tid ttl dsc ic now).2 = Except.ok j) :
    j.getField "success" = none := by
  unfold TaskService.update_task at h
  try dsimp only at h
  repeat' split at h
  all_goals simp_all
  all_goals (subst h; rfl)

theorem delete_task_ok_success {s : Store} {u : UserId} {tid : TaskId} {j : Json}
    (h : (TaskService.delete_task s u tid).2 = Except.ok j) :
    j.getField "success" = some (Json.bool true) := by
  unfold TaskService.delete_task at h
  try dsimp only at h
  repeat' split at h
  all_goals simp_all
  subst h
  rfl

theorem get_tasks_toJson_success (r : TaskService.GetTasksResult) :
    (TaskService.GetTasksResult.toJson r).getField "success" = some (Json.bool r.success) := rfl

/-- A result the `try:` body returned normally is never flagged failed. -/
theorem execute_tool_inner_ok_success {s : Store} {env : Env} {n : String}
    {p : Obj} {u : UserId} {s' : Store} {env' : Env} {j : Json}
    (h : execute_tool_inner s env n p u = Except.ok (s', env', j)) :
    j.getField "success" ≠ some (Json.bool false) := by
  unfold execute_tool_inner at h
  simp only [] at h
  repeat' split at h
  all_goals (try simp_all)
  all_goals obtain ⟨rfl, rfl, rfl⟩ := h
  · exact fun hc => by
      have := create_task_ok_success (by assumption)
      simp_all
  · intro hc
    rw [get_tasks_toJson_success] at hc
    simp_all
  · exact fun hc => by
      have := complete_task_ok_success (by assumption)
      simp_all
  · exact fun hc => by
      have := update_task_ok_success (by assumption)
      simp_all
  · exact fun hc => by
      have := delete_task_ok_success (by assumption)
      simp_all

/-- The catch-all: an exception in the body yields the raw error mapping. -/
theorem execute_tool_of_inner_error {s : Store} {env : Env} {n : String}
    {p : Obj} {u : UserId} {e : PyError}
    (h : execute_tool_inner s env n p u = Except.error e) :
    execute_tool s env n p u = (s, env, errorResult e.str) := by
  unfold execute_tool
  rw [h]

theorem execute_tool_msgs (s : Store) (env : Env) (n : String) (p : Obj)
    (u : UserId) : ((execute_tool s env n p u).1).msgs = s.msgs := by
  unfold execute_tool
  split
  · next r heq =>
    obtain ⟨s1, env1, j1⟩ := r
    exact (execute_tool_inner_frame heq).1
  · rfl

theorem execute_tool_convs (s : Store) (env : Env) (n : String) (p : Obj)
    (u : UserId) : ((execute_tool s env n p u).1).convs = s.convs := by
  unfold execute_tool
  split
  · next r heq =>
    obtain ⟨s1, env1, j1⟩ := r
    exact (execute_tool_inner_frame heq).2
  · rfl

/-- A false `success` flag in an executor result identifies the catch-all's
error mapping, which always carries an `error` message. -/
theorem execute_tool_success_shape (s : Store) (env : Env) (n : String)
    (p : Obj) (u : UserId)
    (h : ((execute_tool s env n p u).2.2).getField "success" = some (Json.bool false)) :
    ∃ m, (execute_tool s env n p u).2.2 = errorResult m := by
  revert h
  unfold execute_tool
  split
  · next r heq =>
    obtain ⟨s1, env1, j1⟩ := r
    intro h
    exact absurd h (execute_tool_inner_ok_success heq)
  · next e heq =>
    intro _
    exact ⟨e.str, rfl⟩

/-! Lemmas about the tool-execution loop. -/

theorem runCalls_records_prefix (uid : UserId) (ac : String)
    (calls : List ModelToolCall) :
    ∀ s env ctx acc, ∃ tl,
      (runCalls s env ctx uid ac calls acc).records = acc ++ tl := by
  induction calls with
  | nil =>
    intro s env ctx acc
    exact ⟨[], by simp [runCalls]⟩
  | cons c rest ih =>
    intro s env ctx acc
    cases hc : c.arguments with
    | none => exact ⟨[], by simp [runCalls, hc]⟩
    | some params =>
      rcases hE : execute_tool s env c.name params uid with ⟨s1, env1, res⟩
      obtain ⟨tl, htl⟩ := ih s1 env1
        (ctx ++ [ CtxMsg.assistantToolCall ac c.id c.name (some params)
                , CtxMsg.toolResult c.id res ])
        (acc ++ [{ tool := c.name, parameters := params, result := res }])
      refine ⟨{ tool := c.name, parameters := params, result := res } :: tl, ?_⟩
      simp only [runCalls, hc, hE]
      rw [htl, List.append_assoc]
      rfl

theorem runCalls_ctx_prefix (uid : UserId) (ac : String)
    (calls : List ModelToolCall) :
    ∀ s env ctx acc, ∃ tl,
      (runCalls s env ctx uid ac calls acc).ctx = ctx ++ tl := by
  induction calls with
  | nil =>
    intro s env ctx acc
    exact ⟨[], by simp [runCalls]⟩
  | cons c rest ih =>
    intro s env ctx acc
    cases hc : c.arguments with
    | none => exact ⟨[], by simp [runCalls, hc]⟩
    | some params =>
      rcases hE : execute_tool s env c.name params uid with ⟨s1, env1, res⟩
      obtain ⟨tl, htl⟩ := ih s1 env1
        (ctx ++ [ CtxMsg.assistantToolCall ac c.id c.name (some params)
                , CtxMsg.toolResult c.id res ])
        (acc ++ [{ tool := c.name, parameters := params, result := res }])
      refine ⟨[ CtxMsg.assistantToolCall ac c.id c.name c.arguments
              , CtxMsg.toolResult c.id res ] ++ tl, ?_⟩
      simp only [runCalls, hc, hE]
      rw [htl, List.append_assoc]

theorem runCalls_msgs (uid : UserId) (ac : String) (calls : List ModelToolCall) :
    ∀ s env ctx acc,
      ((runCalls s env ctx uid ac calls acc).store).msgs = s.msgs := by
  induction calls with
  | nil => intro s env ctx acc; simp [runCalls]
  | cons c rest ih =>
    intro s env ctx acc
    cases hc : c.arguments with
    | none => simp [runCalls, hc]
    | some params =>
      rcases hE : execute_tool s env c.name params uid with ⟨s1, env1, res⟩
      simp only [runCalls, hc, hE]
      rw [ih]
      have := execute_tool_msgs s env c.name params uid
      rw [hE] at this
      exact this

theorem runCalls_convs (uid : UserId) (ac : String) (calls : List ModelToolCall) :
    ∀ s env ctx acc,
      ((runCalls s env ctx uid ac calls acc).store).convs = s.convs := by
  induction calls with
  | nil => intro s env ctx acc; simp [runCalls]
  | cons c rest ih =>
    intro s env ctx acc
    cases hc : c.arguments with
    | none => simp [runCalls, hc]
    | some params =>
      rcases hE : execute_tool s env c.name params uid with ⟨s1, env1, res⟩
      simp only [runCalls, hc, hE]
      rw [ih]
      have := execute_tool_convs s env c.name params uid
      rw [hE] at this
      exact this

/-- Property of a recorded invocation: if its result is flagged
`success: false` then the result is the catch-all's error mapping, which
carries an `error` string. -/
def failedRecordShape (r : ToolInvocationRecord) : Prop :=
  r.result.getField "success" = some (Json.bool false) →
    ∃ m, r.result = errorResult m

/-- When every requested call's arguments decode, the loop records exactly
one invocation per requested call, in request order, with the decoded
parameters, and never raises; every recorded failure carries its error
message. -/
theorem runCalls_all_decode (uid : UserId) (ac : String)
    (calls : List ModelToolCall) :
    ∀ s env ctx acc,
      (∀ c ∈ calls, c.arguments.isSome) →
      (∀ r ∈ acc, failedRecordShape r) →
      (runCalls s env ctx uid ac calls acc).err = none ∧
      (runCalls s env ctx uid ac calls acc).records.map (fun r => r.tool)
        = acc.map (fun r => r.tool) ++ calls.map (fun c => c.name) ∧
      (runCalls s env ctx uid ac calls acc).records.map (fun r => r.parameters)
        = acc.map (fun r => r.parameters) ++ calls.map (fun c => c.arguments.getD []) ∧
      (∀ r ∈ (runCalls s env ctx uid ac calls acc).records, failedRecordShape r) := by
  induction calls with
  | nil =>
    intro s env ctx acc hdec hacc
    simp [runCalls]
    exact hacc
  | cons c rest ih =>
    intro s env ctx acc hdec hacc
    cases hc : c.arguments with
    | none =>
      exact absurd (hdec c (List.mem_cons_self c rest)) (by simp [hc])
    | some params =>
      rcases hE : execute_tool s env c.name params uid with ⟨s1, env1, res⟩
      have hres : failedRecordShape { tool := c.name, parameters := params, result := res } := by
        intro hflag
        have := execute_tool_success_shape s env c.name params uid
        rw [hE] at this
        exact this hflag
      obtain ⟨h1, h2, h3, h4⟩ := ih s1 env1
        (ctx ++ [ CtxMsg.assistantToolCall ac c.id c.name (some params)
                , CtxMsg.toolResult c.id res ])
        (acc ++ [{ tool := c.name, parameters := params, result := res }])
        (fun x hx => hdec x (List.mem_cons_of_mem c hx))
        (by
          intro r hr
          rcases List.mem_append.mp hr with hr | hr
          · exact hacc r hr
          · simp at hr
            subst hr
            exact hres)
      refine ⟨?_, ?_, ?_, ?_⟩
      · simp only [runCalls, hc, hE]
        exact h1
      · simp only [runCalls, hc, hE]
        rw [h2]
        simp [hc]
      · simp only [runCalls, hc, hE]
        rw [h3]
        simp [hc]
      · simp only [runCalls, hc, hE]
        exact h4

/-! Lemmas about the conversation store and the orchestrator's store
footprint. -/

/-- The message `add_message` inserts for the given arguments. -/
def insertedMessage (cid : ConvId) (uid : UserId) (role : MessageRole)
    (content : String) (tc : Option Json) (msgId : MsgId) (nm : Time) : Message :=
  { id := msgId, conversation_id := cid, user_id := uid, role := role,
    content := pyStrip content, tool_calls := tc, created_at := nm }

/-- On valid content and an owned conversation, `add_message` commits the
message insert and the parent's `updated_at` bump together. -/
theorem add_message_ok (s : Store) (cid : ConvId) (uid : UserId)
    (role : MessageRole) (content : String) (tc : Option Json)
    (msgId : MsgId) (nm ncv : Time) (conv : Conversation)
    (hconv : ConversationService.get_conversation s cid uid = some conv)
    (h1 : pyStrip content ≠ "") (h2 : (pyStrip content).length ≤ 50000) :
    ConversationService.add_message s cid uid role content tc msgId nm ncv
      = ({ s with
            msgs := s.msgs ++ [insertedMessage cid uid role content tc msgId nm],
            convs := (updateFirst (fun c => c.id == cid && c.user_id == uid)
              (fun c => { c with updated_at := ncv }) s.convs) },
         Except.ok (insertedMessage cid uid role content tc msgId nm)) := by
  unfold ConversationService.add_message
  dsimp only
  rw [if_neg (by simpa using h1), if_neg (by omega), hconv]
  rfl

/-- Every raising path of `add_message` leaves the store unchanged: no
message appears without the bump, no bump without the message. -/
theorem add_message_error_frame {s : Store} {cid : ConvId} {uid : UserId}
    {role : MessageRole} {content : String} {tc : Option Json}
    {msgId : MsgId} {nm ncv : Time} {s' : Store} {e : PyError}
    (h : ConversationService.add_message s cid uid role content tc msgId nm ncv
      = (s', Except.error e)) : s' = s := by
  unfold ConversationService.add_message at h
  try dsimp only at h
  repeat' split at h
  all_goals simp_all

/-- Whatever `add_message` does, the message table only grows at the end. -/
theorem add_message_msgs_extends (s : Store) (cid : ConvId) (uid : UserId)
    (role : MessageRole) (content : String) (tc : Option Json)
    (msgId : MsgId) (nm ncv : Time) :
    ∃ tl, ((ConversationService.add_message s cid uid role content tc msgId nm ncv).1).msgs
      = s.msgs ++ tl := by
  unfold ConversationService.add_message
  try dsimp only
  repeat' split
  all_goals first
    | exact ⟨_, rfl⟩
    | exact ⟨[], by simp⟩

/-- The orchestrator never touches the message table. -/
theorem process_user_message_msgs (s : Store) (env : Env) (um : String)
    (hist : List Message) (uid : UserId) (llm : List CtxMsg → ModelMessage)
    (llmf : List CtxMsg → Option String) :
    ((process_user_message s env um hist uid llm llmf).1).msgs = s.msgs := by
  unfold process_user_message
  dsimp only
  split_ifs
  · rfl
  · split
    · exact runCalls_msgs _ _ _ _ _ _ _
    · exact runCalls_msgs _ _ _ _ _ _ _

/-- The translator, rewritten over the branch predicates (definitional). -/
theorem translate_eq (code msg : String) :
    translate_mcp_error code msg =
      if kw_auth code then "Your authentication token expired. Please log in again."
      else if kw_authz code then "I don't see that task in your list."
      else if kw_not_found code then "I couldn't find the task you're looking for."
      else if kw_validation code then "That doesn't seem right. Can you try again?"
      else if kw_database code then "I'm having trouble reaching the database. Please try again in a moment."
      else "Something went wrong. Please try again later." := rfl

/-- C6 (amended): `translate_mcp_error` is total and always returns one of
the six fixed user-facing strings; its output never contains a literal
internal kind token; the keyword match is case-insensitive on the kind with
the precedence AUTHENTICATION/UNAUTHORIZED, AUTHORIZATION/FORBIDDEN,
NOT_FOUND (or "NOT FOUND"), VALIDATION/"BAD REQUEST" (a space, not the
underscore the claim states), DATABASE/CONNECTION, and every unmatched kind
falls through to the generic message. -/
theorem claim6_translator_contract (code msg : String) :
    translate_mcp_error code msg ∈ user_facing_messages ∧
    (∀ tok ∈ internal_tokens, strContains (translate_mcp_error code msg) tok = false) ∧
    (kw_auth code = true →
      translate_mcp_error code msg = "Your authentication token expired. Please log in again.") ∧
    (kw_auth code = false → kw_authz code = true →
      translate_mcp_error code msg = "I don't see that task in your list.") ∧
    (kw_auth code = false → kw_authz code = false → kw_not_found code = true →
      translate_mcp_error code msg = "I couldn't find the task you're looking for.") ∧
    (kw_auth code = false → kw_authz code = false → kw_not_found code = false →
      kw_validation code = true →
      translate_mcp_error code msg = "That doesn't seem right. Can you try again?") ∧
    (kw_auth code = false → kw_authz code = false → kw_not_found code = false →
      kw_validation code = false → kw_database code = true →
      translate_mcp_error code msg = "I'm having trouble reaching the database. Please try again in a moment.") ∧
    (kw_auth code = false → kw_authz code = false → kw_not_found code = false →
      kw_validation code = false → kw_database code = false →
      translate_mcp_error code msg = "Something went wrong. Please try again later.") := by
  have hmem : translate_mcp_error code msg ∈ user_facing_messages := by
    rw [translate_eq]
    split_ifs <;> simp [user_facing_messages]
  have htok : ∀ m ∈ user_facing_messages, ∀ tok ∈ internal_tokens,
      strContains m tok = false := by decide
  refine ⟨hmem, fun tok ht => htok _ hmem tok ht, ?_, ?_, ?_, ?_, ?_, ?_⟩
  · intro h1
    rw [translate_eq, if_pos h1]
  · intro h1 h2
    rw [translate_eq, if_neg (by simp [h1]), if_pos h2]
  · intro h1 h2 h3
    rw [translate_eq, if_neg (by simp [h1]), if_neg (by simp [h2]), if_pos h3]
  · intro h1 h2 h3 h4
    rw [translate_eq, if_neg (by simp [h1]), if_neg (by simp [h2]),
      if_neg (by simp [h3]), if_pos h4]
  · intro h1 h2 h3 h4 h5
    rw [translate_eq, if_neg (by simp [h1]), if_neg (by simp [h2]),
      if_neg (by simp [h3]), if_neg (by simp [h4]), if_pos h5]
  · intro h1 h2 h3 h4 h5
    rw [translate_eq, if_neg (by simp [h1]), if_neg (by simp [h2]),
      if_neg (by simp [h3]), if_neg (by simp [h4]), if_neg (by simp [h5])]

/-- C6 counterexample: the kind string `BAD_REQUEST` — one of the claim's
validation keywords — falls through to the generic message, because the
source matches `"BAD REQUEST"` with a space, not `"BAD_REQUEST"`. -/
theorem claim6_bad_request_underscore :
    translate_mcp_error "BAD_REQUEST" "" = "Something went wrong. Please try again later." ∧
    translate_mcp_error "BAD_REQUEST" "" ≠ "That doesn't seem right. Can you try again?" :=
  ⟨rfl, by decide⟩

/-- C6 witness: the amended keyword mapping at the concrete kind
`VALIDATION_ERROR`. -/
theorem claim6_witness :
    kw_auth "VALIDATION_ERROR" = false ∧ kw_authz "VALIDATION_ERROR" = false ∧
    kw_not_found "VALIDATION_ERROR" = false ∧ kw_validation "VALIDATION_ERROR" = true ∧
    translate_mcp_error "VALIDATION_ERROR" "boom" = "That doesn't seem right. Can you try again?" ∧
    translate_mcp_error "VALIDATION_ERROR" "boom" ∈ user_facing_messages := by
  refine ⟨by decide, by decide, by decide, by decide, ?_, ?_⟩
  · exact (claim6_translator_contract "VALIDATION_ERROR" "boom").2.2.2.2.2.1
      (by decide) (by decide) (by decide) (by decide)
  · exact (claim6_translator_contract "VALIDATION_ERROR" "boom").1

/-- C7 (amended): `get_tasks` never raises — it always succeeds, silently
clamping an out-of-range `page_size` to the default 20 (and `page < 1` to
1), and an in-range `page_size` is used as given; a `list_tasks` tool call
with omitted parameters defaults to `page = 1`, `page_size = 20`. -/
theorem claim7_pagination_clamps (s : Store) (user_id : UserId)
    (completed : Option Bool) (page page_size : Int) :
    (TaskService.get_tasks s user_id completed page page_size).success = true ∧
    (page_size < 1 ∨ 100 < page_size →
      TaskService.get_tasks s user_id completed page page_size
        = TaskService.get_tasks s user_id completed page 20) ∧
    (1 ≤ page_size → page_size ≤ 100 →
      (TaskService.get_tasks s user_id completed page page_size).page_size = page_size) ∧
    (∀ env : Env, execute_tool s env "list_tasks" [] user_id
      = (s, env, (TaskService.get_tasks s user_id none 1 20).toJson)) := by
  refine ⟨rfl, ?_, ?_, fun env => rfl⟩
  · intro h
    have hb : (decide (page_size < 1) || decide (page_size > 100)) = true := by
      rcases h with h | h <;> simp [h]
    unfold TaskService.get_tasks
    dsimp only
    rw [if_pos hb]
    rfl
  · intro h1 h2
    have hb : ¬((decide (page_size < 1) || decide (page_size > 100)) = true) := by
      simp only [Bool.or_eq_true, decide_eq_true_eq, not_or]
      omega
    unfold TaskService.get_tasks
    dsimp only
    rw [if_neg hb]

/-- C7 counterexample: `page_size = 0` and `page_size = 101` are out of
range, yet the call succeeds (`success = true`) with the value silently
clamped to 20 — it does not fail with a Validation error. -/
theorem claim7_out_of_range_succeeds :
    (TaskService.get_tasks empty_store 1 none 1 0).success = true ∧
    (TaskService.get_tasks empty_store 1 none 1 0).page_size = 20 ∧
    (TaskService.get_tasks empty_store 1 none 1 101).page_size = 20 :=
  ⟨rfl, rfl, rfl⟩

/-- C7 witness: the amended clamping behaviour at `page_size = 0`, and the
defaults taken by a parameterless `list_tasks` call. -/
theorem claim7_witness :
    ((0:Int) < 1 ∨ (100:Int) < 0) ∧
    TaskService.get_tasks empty_store 1 none 1 0
      = TaskService.get_tasks empty_store 1 none 1 20 ∧
    execute_tool empty_store demo_env "list_tasks" [] 1
      = (empty_store, demo_env, (TaskService.get_tasks empty_store 1 none 1 20).toJson) :=
  ⟨Or.inl (by decide),
   (claim7_pagination_clamps empty_store 1 none 1 0).2.1 (Or.inl (by decide)),
   (claim7_pagination_clamps empty_store 1 none 1 0).2.2.2 demo_env⟩

/-- C9 (amended): for valid `(title, description)`, `add_task` then `get`
returns a Task with the trimmed title, the given description,
`is_completed = false`, and `created_at ≤ updated_at` — the two fields come
from two separate creation-time clock reads (one per column default
factory), so they are equal exactly when the clock does not advance between
the reads, not unconditionally. -/
theorem claim9_create_then_get (s : Store) (user_id : UserId) (title : String)
    (description : Option String) (newId : TaskId) (n1 n2 : Time)
    (hfresh : ∀ t ∈ s.tasks, t.id ≠ newId)
    (ht1 : pyStrip title ≠ "") (ht2 : (pyStrip title).length ≤ 255)
    (hmono : n1 ≤ n2) :
    ∃ d, (TaskService.create_task s user_id title description newId n1 n2).2 = Except.ok d ∧
      ∃ t, TaskService.get_user_task
          (TaskService.create_task s user_id title description newId n1 n2).1 user_id newId
          = some t ∧
        t.title = pyStrip title ∧ t.description = description ∧
        t.is_completed = false ∧ t.created_at = n1 ∧ t.updated_at = n2 ∧
        t.created_at ≤ t.updated_at := by
  unfold TaskService.create_task
  dsimp only
  rw [if_neg (by simpa using ht1), if_neg (by omega)]
  refine ⟨_, rfl, ?_⟩
  unfold TaskService.get_user_task
  dsimp only
  rw [find?_append_none (List.find?_eq_none.mpr ?hnone), List.find?_cons_of_pos _ (by simp)]
  case hnone =>
    intro t ht
    simp [hfresh t ht]
  exact ⟨_, rfl, rfl, rfl, rfl, rfl, rfl, hmono⟩

/-- C9 counterexample: a legal (non-decreasing) clock trace that advances
between the two creation-time reads yields `created_at = 0 ≠ 1 =
updated_at`, refuting the claimed `created_at == updated_at`. -/
theorem claim9_two_clock_reads :
    (TaskService.get_user_task
        (TaskService.create_task empty_store 1 "Buy milk" none 42 0 1).1 1 42).map
      (fun t => (t.created_at, t.updated_at)) = some (0, 1) ∧ (0 : Time) ≠ 1 :=
  ⟨rfl, by decide⟩

/-- C9 witness: the amended round trip at a concrete input where the clock
does not advance between the two reads. -/
theorem claim9_witness :
    (∀ t ∈ empty_store.tasks, t.id ≠ 42) ∧ pyStrip "Buy milk" ≠ "" ∧
    (pyStrip "Buy milk").length ≤ 255 ∧ (3 : Time) ≤ 3 ∧
    (∃ d, (TaskService.create_task empty_store 1 "Buy milk" none 42 3 3).2 = Except.ok d ∧
      ∃ t, TaskService.get_user_task
          (TaskService.create_task empty_store 1 "Buy milk" none 42 3 3).1 1 42 = some t ∧
        t.title = pyStrip "Buy milk" ∧ t.description = none ∧
        t.is_completed = false ∧ t.created_at = 3 ∧ t.updated_at = 3 ∧
        t.created_at ≤ t.updated_at) :=
  ⟨by simp [empty_store], by decide, by decide, le_refl 3,
   claim9_create_then_get empty_store 1 "Buy milk" none 42 3 3
     (by simp [empty_store]) (by decide) (by decide) (le_refl 3)⟩

/-- C10 (confirmed): `update_task` with `is_completed` supplied always
succeeds on an owned task and overwrites the flag to the given value — in
particular it re-completes an already-completed task and reopens one
(`true → false`) — while `complete_task` refuses the same already-completed
task with its Validation error. -/
theorem claim10_update_overwrites_completion (s : Store) (user_id : UserId)
    (task_id : TaskId) (t : Task) (b : Bool) (now : Time)
    (hfind : TaskService.get_user_task s user_id task_id = some t) :
    (TaskService.update_task s user_id task_id none none (some b) now).2
      = Except.ok (task_to_dict { t with is_completed := b, updated_at := now }) ∧
    TaskService.get_user_task
        (TaskService.update_task s user_id task_id none none (some b) now).1
        user_id task_id
      = some { t with is_completed := b, updated_at := now } ∧
    (t.is_completed = true →
      (TaskService.complete_task s user_id task_id now).2
        = Except.error (PyError.valueError
            ("Task " ++ toString task_id ++ " is already completed."))) := by
  refine ⟨?_, ?_, ?_⟩
  · unfold TaskService.update_task
    rw [hfind]
    rfl
  · unfold TaskService.update_task
    rw [hfind]
    dsimp only [TaskService.apply_update]
    unfold TaskService.get_user_task
    have hfind' : s.tasks.find? (fun x => x.id == task_id && x.user_id == user_id) = some t :=
      hfind
    have hp : (t.id == task_id && t.user_id == user_id) = true := by
      have hq := List.find?_some hfind'
      exact hq
    exact find?_updateFirst hfind' hp
  · intro ht
    unfold TaskService.complete_task
    rw [hfind]
    dsimp only
    rw [if_pos ht]

/-- C10 witness: reopening a concrete already-completed task succeeds via
`update_task` while `complete_task` refuses it. -/
theorem claim10_witness :
    TaskService.get_user_task c10_store 1 3 = some c10_task ∧
    ((TaskService.update_task c10_store 1 3 none none (some false) 9).2
        = Except.ok (task_to_dict { c10_task with is_completed := false, updated_at := 9 }) ∧
      TaskService.get_user_task
          (TaskService.update_task c10_store 1 3 none none (some false) 9).1 1 3
        = some { c10_task with is_completed := false, updated_at := 9 } ∧
      (c10_task.is_completed = true →
        (TaskService.complete_task c10_store 1 3 9).2
          = Except.error (PyError.valueError "Task 3 is already completed."))) :=
  ⟨rfl, claim10_update_overwrites_completion c10_store 1 3 c10_task false 9 rfl⟩

/-- C4 (amended): every raising path of `add_message` leaves the store
untouched and every successful append commits the message insert and the
parent conversation's `updated_at` bump together (same transaction, neither
effect without the other); the new `updated_at` is the append-time clock
read, so it is `≥ created_at` whenever the clock has not gone backwards
since creation, and it is non-decreasing — but not strictly increasing —
across successive appends, because two appends may read the same clock
value. -/
theorem claim4_append_atomic_bump (s : Store) (cid : ConvId) (uid : UserId)
    (role : MessageRole) (content : String) (tc : Option Json)
    (msgId : MsgId) (nm ncv : Time) (conv : Conversation)
    (hconv : ConversationService.get_conversation s cid uid = some conv) :
    (∀ s' e, ConversationService.add_message s cid uid role content tc msgId nm ncv
        = (s', Except.error e) → s' = s) ∧
    (∀ s' m, ConversationService.add_message s cid uid role content tc msgId nm ncv
        = (s', Except.ok m) →
      s'.msgs = s.msgs ++ [m] ∧ m.conversation_id = cid ∧
      ConversationService.get_conversation s' cid uid
        = some { conv with updated_at := ncv } ∧
      (conv.created_at ≤ ncv →
        ∃ c', ConversationService.get_conversation s' cid uid = some c' ∧
          c'.created_at ≤ c'.updated_at)) := by
  constructor
  · intro s' e h
    exact add_message_error_frame h
  · intro s' m h
    have h1 : pyStrip content ≠ "" := by
      intro hc
      unfold ConversationService.add_message at h
      dsimp only at h
      rw [if_pos (by simpa using hc)] at h
      simp at h
    have h2 : (pyStrip content).length ≤ 50000 := by
      by_contra hc
      unfold ConversationService.add_message at h
      dsimp only at h
      rw [if_neg (by simpa using h1), if_pos (by omega)] at h
      simp at h
    rw [add_message_ok s cid uid role content tc msgId nm ncv conv hconv h1 h2] at h
    obtain ⟨hs, hm⟩ := Prod.mk.injEq .. ▸ h
    have hm' : insertedMessage cid uid role content tc msgId nm = m := by
      simpa using hm
    subst hs
    subst hm'
    have hfind' : s.convs.find? (fun c => c.id == cid && c.user_id == uid) = some conv :=
      hconv
    have hp : (conv.id == cid && conv.user_id == uid) = true := by
      have hq := List.find?_some hfind'
      exact hq
    have hget : ConversationService.get_conversation
        ({ s with
            msgs := s.msgs ++ [insertedMessage cid uid role content tc msgId nm],
            convs := (updateFirst (fun c => c.id == cid && c.user_id == uid)
              (fun c => { c with updated_at := ncv }) s.convs) }) cid uid
        = some { conv with updated_at := ncv } := by
      unfold ConversationService.get_conversation
      exact find?_updateFirst hfind' hp
    refine ⟨rfl, rfl, hget, ?_⟩
    intro hle
    exact ⟨{ conv with updated_at := ncv }, hget, by simpa using hle⟩

/-- C4 counterexample: two successive appends to the same conversation that
read the same wall-clock value (a legal trace) leave `updated_at` equal —
5 after the first append and still 5 after the second — so `updated_at` is
not strictly increasing across appends. -/
theorem claim4_not_strictly_increasing :
    (ConversationService.get_conversation c4_store1 1 1).map (fun c => c.updated_at)
      = some 5 ∧
    (ConversationService.get_conversation c4_store2 1 1).map (fun c => c.updated_at)
      = some 5 ∧
    (c4_store1.msgs.length, c4_store2.msgs.length) = (1, 2) ∧
    ¬((5 : Time) > 5) :=
  ⟨rfl, rfl, rfl, by decide⟩

/-- C4 witness: the amended atomic-bump behaviour at a concrete append. -/
theorem claim4_witness :
    ConversationService.get_conversation c4_store0 1 1 = some c4_conv ∧
    ((∀ s' e, ConversationService.add_message c4_store0 1 1 MessageRole.user "hi" none 10 5 5
        = (s', Except.error e) → s' = c4_store0) ∧
      (∀ s' m, ConversationService.add_message c4_store0 1 1 MessageRole.user "hi" none 10 5 5
          = (s', Except.ok m) →
        s'.msgs = c4_store0.msgs ++ [m] ∧ m.conversation_id = 1 ∧
        ConversationService.get_conversation s' 1 1
          = some { c4_conv with updated_at := 5 } ∧
        (c4_conv.created_at ≤ 5 →
          ∃ c', ConversationService.get_conversation s' 1 1 = some c' ∧
            c'.created_at ≤ c'.updated_at))) :=
  ⟨rfl, claim4_append_atomic_bump c4_store0 1 1 MessageRole.user "hi" none 10 5 5 c4_conv rfl⟩

theorem apply_update_user (t : Task) (u : Bool) (d : Option String) (i : Option Bool) :
    ((TaskService.apply_update t u d i).1).user_id = t.user_id := by
  unfold TaskService.apply_update
  cases d <;> cases i <;> rfl

/-- C3 (confirmed): for distinct owners `A ≠ B`, every Task/Conversation
Store operation scoped to `A` neither returns nor mutates anything `B`
owns: the mutators leave `B`'s rows exactly as they were, a lookup of a
`B`-owned id fails with the not-found/access-denied error and an unchanged
store, task and conversation list results only ever contain `A`'s rows
(so `B`'s entities are absent from `A`'s listings), and `append_message`
on a `B`-owned conversation is refused with the store unchanged. -/
theorem claim3_ownership_isolation (s : Store) (A B : UserId) (hAB : A ≠ B) :
    (∀ title d nid n1 n2,
      ownedTasks (TaskService.create_task s A title d nid n1 n2).1 B = ownedTasks s B) ∧
    (∀ tid ttl dsc ic now,
      ownedTasks (TaskService.update_task s A tid ttl dsc ic now).1 B = ownedTasks s B) ∧
    (∀ tid now,
      ownedTasks (TaskService.complete_task s A tid now).1 B = ownedTasks s B) ∧
    (∀ tid,
      ownedTasks (TaskService.delete_task s A tid).1 B = ownedTasks s B) ∧
    (∀ tid, (∀ t ∈ s.tasks, t.id = tid → t.user_id = B) →
      TaskService.get_user_task s A tid = none ∧
      (∀ now, TaskService.complete_task s A tid now
        = (s, Except.error (PyError.valueError (TaskService.task_not_found_message tid)))) ∧
      (∀ ttl dsc ic now, TaskService.update_task s A tid ttl dsc ic now
        = (s, Except.error (PyError.valueError (TaskService.task_not_found_message tid)))) ∧
      TaskService.delete_task s A tid
        = (s, Except.error (PyError.valueError (TaskService.task_not_found_message tid)))) ∧
    (∀ c p ps, ∀ dct ∈ (TaskService.get_tasks s A c p ps).tasks,
      ∃ t, t ∈ s.tasks ∧ t.user_id = A ∧ dct = task_to_dict t) ∧
    (∀ cid role content tc mid nm ncv,
      ownedConvs (ConversationService.add_message s cid A role content tc mid nm ncv).1 B
        = ownedConvs s B ∧
      ownedMsgs (ConversationService.add_message s cid A role content tc mid nm ncv).1 B
        = ownedMsgs s B) ∧
    (∀ cid, (∀ c ∈ s.convs, c.id = cid → c.user_id = B) →
      ConversationService.get_conversation s cid A = none ∧
      (∀ role content tc mid nm ncv,
        ConversationService.add_message s cid A role content tc mid nm ncv
          = (s, Except.error (PyError.valueError
              "Conversation not found or user not authorized"))
        ∨ (ConversationService.add_message s cid A role content tc mid nm ncv).1 = s)) ∧
    (∀ limit offset,
      ∀ conv ∈ (ConversationService.list_conversations s A limit offset).1,
        conv ∈ s.convs ∧ conv.user_id = A) := by
  have hBA : ∀ u : UserId, u = A → (u == B) = false := by
    intro u hu
    subst hu
    simp [hAB]
  refine ⟨?_, ?_, ?_, ?_, ?_, ?_, ?_, ?_, ?_⟩
  · -- create_task
    intro title d nid n1 n2
    unfold TaskService.create_task
    dsimp only
    split_ifs <;> simp [ownedTasks, List.filter_append, hAB]
  · -- update_task
    intro tid ttl dsc ic now
    unfold TaskService.update_task
    cases hf : TaskService.get_user_task s A tid with
    | none => rfl
    | some t =>
      have hq := List.find?_some hf
      have htA : t.user_id = A := by
        simp only [Bool.and_eq_true, beq_iff_eq] at hq
        exact hq.2
      dsimp only
      repeat' split
      all_goals (try rfl)
      rename_i x task₂ upd heqA hupd
      have huser₂ : task₂.user_id = t.user_id := by
        split at heqA
        · simp only [Except.ok.injEq, Prod.mk.injEq] at heqA
          rw [← heqA.1]
        · split at heqA
          · simp at heqA
          · split at heqA
            · simp at heqA
            · simp only [Except.ok.injEq, Prod.mk.injEq] at heqA
              rw [← heqA.1]
      have hfin : ((TaskService.apply_update task₂ upd dsc ic).1).user_id = A := by
        rw [apply_update_user, huser₂, htA]
      show ownedTasks _ B = ownedTasks s B
      unfold ownedTasks
      refine filter_updateFirst ?_ ?_
      · intro x hx
        simp only [Bool.and_eq_true, beq_iff_eq] at hx
        exact hBA x.user_id hx.2
      · intro x hx
        exact hBA _ hfin
  · -- complete_task
    intro tid now
    unfold TaskService.complete_task
    cases hf : TaskService.get_user_task s A tid with
    | none => rfl
    | some t =>
      dsimp only
      split_ifs
      · rfl
      · show ownedTasks _ B = ownedTasks s B
        unfold ownedTasks
        refine filter_updateFirst ?_ ?_
        · intro x hx
          simp only [Bool.and_eq_true, beq_iff_eq] at hx
          exact hBA x.user_id hx.2
        · intro x hx
          simp only [Bool.and_eq_true, beq_iff_eq] at hx
          exact hBA x.user_id hx.2
  · -- delete_task
    intro tid
    unfold TaskService.delete_task
    cases hf : TaskService.get_user_task s A tid with
    | none => rfl
    | some t =>
      show ownedTasks _ B = ownedTasks s B
      unfold ownedTasks
      refine filter_removeFirst ?_
      intro x hx
      simp only [Bool.and_eq_true, beq_iff_eq] at hx
      exact hBA x.user_id hx.2
  · -- foreign id: not found, store unchanged
    intro tid htid
    have hnone : TaskService.get_user_task s A tid = none := by
      unfold TaskService.get_user_task
      refine List.find?_eq_none.mpr ?_
      intro t ht hq
      simp only [Bool.and_eq_true, beq_iff_eq] at hq
      exact hAB ((htid t ht hq.1) ▸ hq.2).symm
    refine ⟨hnone, ?_, ?_, ?_⟩
    · intro now
      unfold TaskService.complete_task
      rw [hnone]
    · intro ttl dsc ic now
      unfold TaskService.update_task
      rw [hnone]
    · unfold TaskService.delete_task
      rw [hnone]
  · -- list scoped to A
    intro c p ps dct hdct
    unfold TaskService.get_tasks at hdct
    dsimp only at hdct
    obtain ⟨t, ht, rfl⟩ := List.mem_map.mp hdct
    have ht2 := mem_sortByLe.mp (List.mem_of_mem_drop (List.mem_of_mem_take ht))
    obtain ⟨tmem, hpred⟩ := List.mem_filter.mp ht2
    simp only [Bool.and_eq_true, beq_iff_eq] at hpred
    exact ⟨t, tmem, hpred.1, rfl⟩
  · -- add_message never touches B's conversations or messages
    intro cid role content tc mid nm ncv
    unfold ConversationService.add_message
    dsimp only
    split_ifs
    · exact ⟨rfl, rfl⟩
    · exact ⟨rfl, rfl⟩
    · cases hg : ConversationService.get_conversation s cid A with
      | none => exact ⟨rfl, rfl⟩
      | some conv =>
        constructor
        · show ownedConvs _ B = ownedConvs s B
          unfold ownedConvs
          refine filter_updateFirst ?_ ?_
          · intro x hx
            simp only [Bool.and_eq_true, beq_iff_eq] at hx
            exact hBA x.user_id hx.2
          · intro x hx
            simp only [Bool.and_eq_true, beq_iff_eq] at hx
            exact hBA x.user_id hx.2
        · show ownedMsgs _ B = ownedMsgs s B
          unfold ownedMsgs
          simp [List.filter_append, hAB]
  · -- a conversation B owns is invisible to A
    intro cid hcids
    have hnone : ConversationService.get_conversation s cid A = none := by
      unfold ConversationService.get_conversation
      refine List.find?_eq_none.mpr ?_
      intro conv hc hq
      simp only [Bool.and_eq_true, beq_iff_eq] at hq
      exact hAB ((hcids conv hc hq.1) ▸ hq.2).symm
    refine ⟨hnone, ?_⟩
    intro role content tc mid nm ncv
    unfold ConversationService.add_message
    dsimp only
    split_ifs
    · exact Or.inr rfl
    · exact Or.inr rfl
    · rw [hnone]
      exact Or.inl rfl
  · -- conversation listings scoped to A
    intro limit offset conv hconv
    unfold ConversationService.list_conversations at hconv
    dsimp only at hconv
    have h2 := mem_sortByLe.mp (List.mem_of_mem_drop (List.mem_of_mem_take hconv))
    obtain ⟨cmem, hpred⟩ := List.mem_filter.mp h2
    simp only [beq_iff_eq] at hpred
    exact ⟨cmem, hpred⟩

/-- C3 witness: the isolation conjunction at a concrete two-user store:
user one cannot see user two's task or conversation, deleting with a
foreign id leaves user two's tasks intact, and user two's conversation is
absent from user one's conversation listing. -/
theorem claim3_witness :
    (1 : UserId) ≠ 2 ∧
    (TaskService.get_user_task c3_store 1 2 = none ∧
      ConversationService.get_conversation c3_store 3 1 = none ∧
      ownedTasks (TaskService.delete_task c3_store 1 2).1 2 = ownedTasks c3_store 2 ∧
      (∀ conv ∈ (ConversationService.list_conversations c3_store 1 50 0).1,
        conv ∈ c3_store.convs ∧ conv.user_id = 1) ∧
      (ConversationService.list_conversations c3_store 1 50 0).1 = []) := by
  have h := claim3_ownership_isolation c3_store 1 2 (by decide)
  refine ⟨by decide, ?_, ?_, ?_, ?_, rfl⟩
  · exact (h.2.2.2.2.1 2 (by decide)).1
  · exact (h.2.2.2.2.2.2.2.1 3 (by decide)).1
  · exact h.2.2.2.1 2
  · exact h.2.2.2.2.2.2.2.2 50 0

/-- C1 (amended): provided every requested call's argument string decodes
as JSON, `process_user_message` returns (never raises) a `tool_calls` list
with exactly one record per requested call, in request order, carrying each
call's decoded parameters; a call recorded as failed (`success: false`)
always carries an error message, and its failure does not abort the
loop — the records for all later calls are still present.  (Unamended, the
claim fails: `json.loads` runs before the `try:`, so one malformed argument
string aborts the whole run — see the counterexample.) -/
theorem claim1_batch_records (s : Store) (env : Env) (um : String)
    (hist : List Message) (uid : UserId)
    (llm : List CtxMsg → ModelMessage) (llmf : List CtxMsg → Option String)
    (hdec : ∀ c ∈ (llm (build_context hist um)).tool_calls, c.arguments.isSome) :
    ∃ out, (process_user_message s env um hist uid llm llmf).2.2 = Except.ok out ∧
      out.tool_calls.map (fun r => r.tool)
        = (llm (build_context hist um)).tool_calls.map (fun c => c.name) ∧
      out.tool_calls.map (fun r => r.parameters)
        = (llm (build_context hist um)).tool_calls.map (fun c => c.arguments.getD []) ∧
      (∀ r ∈ out.tool_calls,
        r.result.getField "success" = some (Json.bool false) →
          ∃ m, r.result = errorResult m) := by
  unfold process_user_message
  dsimp only
  split_ifs with hE
  · refine ⟨_, rfl, ?_, ?_, ?_⟩
    · rw [List.isEmpty_iff.mp hE]
      rfl
    · rw [List.isEmpty_iff.mp hE]
      rfl
    · intro r hr
      cases hr
  · obtain ⟨h1, h2, h3, h4⟩ := runCalls_all_decode uid
      (((llm (build_context hist um)).content).getD "")
      (llm (build_context hist um)).tool_calls s env (build_context hist um) []
      hdec (by intro r hr; cases hr)
    rw [h1]
    refine ⟨_, rfl, ?_, ?_, ?_⟩
    · simpa using h2
    · simpa using h3
    · intro r hr
      exact h4 r hr

/-- C1 counterexample: a model response whose second call carries malformed
argument JSON makes `process_user_message` raise — no `tool_calls` list of
two records is returned — even though the first call already executed (a
task was created). -/
theorem claim1_malformed_arguments_abort :
    (process_user_message empty_store demo_env "add two tasks" [] 1
        c1_llm_bad done_llm_final).2.2 = Except.error json_decode_error ∧
    ((process_user_message empty_store demo_env "add two tasks" [] 1
        c1_llm_bad done_llm_final).1).tasks.length = 1 :=
  ⟨rfl, rfl⟩

/-- C1 witness: three decodable requested calls, the middle one failing at
execution, still yield exactly three records in request order. -/
theorem claim1_witness :
    (∀ c ∈ (c1_llm_demo (build_context [] "do it")).tool_calls, c.arguments.isSome) ∧
    (∃ out, (process_user_message empty_store demo_env "do it" [] 1
        c1_llm_demo done_llm_final).2.2 = Except.ok out ∧
      out.tool_calls.map (fun r => r.tool)
        = (c1_llm_demo (build_context [] "do it")).tool_calls.map (fun c => c.name) ∧
      out.tool_calls.map (fun r => r.parameters)
        = (c1_llm_demo (build_context [] "do it")).tool_calls.map
            (fun c => c.arguments.getD []) ∧
      (∀ r ∈ out.tool_calls,
        r.result.getField "success" = some (Json.bool false) →
          ∃ m, r.result = errorResult m)) :=
  ⟨by decide,
   claim1_batch_records empty_store demo_env "do it" [] 1 c1_llm_demo done_llm_final
     (by decide)⟩

/-- C2 (amended): when a tool executor fails with a Task Store error `e`,
the mapping recorded for that call and fed back into model context as its
tool-role message is `{"success": False, "error": str(e)}` with the RAW
exception text — the Error Translator is not applied, because the
executor's internal catch-all already converted the exception to a result
before the orchestrator's translating handler (which is unreachable for
executor failures) could see it; the loop still continues with the
remaining calls. -/
theorem claim2_raw_error_recorded (s : Store) (env : Env) (ctx : List CtxMsg)
    (uid : UserId) (ac : String) (c : ModelToolCall) (params : Obj)
    (rest : List ModelToolCall) (acc : List ToolInvocationRecord) (e : PyError)
    (hargs : c.arguments = some params)
    (hfail : execute_tool_inner s env c.name params uid = Except.error e) :
    (runCalls s env ctx uid ac (c :: rest) acc).records[acc.length]?
      = some { tool := c.name, parameters := params, result := errorResult e.str } ∧
    (runCalls s env ctx uid ac (c :: rest) acc).ctx[ctx.length + 1]?
      = some (CtxMsg.toolResult c.id (errorResult e.str)) ∧
    errorResult e.str
      = Json.obj [("success", Json.bool false), ("error", Json.str e.str)] := by
  have hE : execute_tool s env c.name params uid = (s, env, errorResult e.str) :=
    execute_tool_of_inner_error hfail
  have hstep : runCalls s env ctx uid ac (c :: rest) acc
      = runCalls s env
          (ctx ++ [ CtxMsg.assistantToolCall ac c.id c.name (some params)
                  , CtxMsg.toolResult c.id (errorResult e.str) ]) uid ac rest
          (acc ++ [{ tool := c.name, parameters := params, result := errorResult e.str }]) := by
    simp only [runCalls, hargs, hE]
  obtain ⟨tlr, htlr⟩ := runCalls_records_prefix uid ac rest s env
    (ctx ++ [ CtxMsg.assistantToolCall ac c.id c.name (some params)
            , CtxMsg.toolResult c.id (errorResult e.str) ])
    (acc ++ [{ tool := c.name, parameters := params, result := errorResult e.str }])
  obtain ⟨tlc, htlc⟩ := runCalls_ctx_prefix uid ac rest s env
    (ctx ++ [ CtxMsg.assistantToolCall ac c.id c.name (some params)
            , CtxMsg.toolResult c.id (errorResult e.str) ])
    (acc ++ [{ tool := c.name, parameters := params, result := errorResult e.str }])
  rw [hstep]
  refine ⟨?_, ?_, rfl⟩
  · rw [htlr, List.append_assoc]
    rw [List.getElem?_append_right (Nat.le_refl acc.length)]
    simp
  · rw [htlc, List.append_assoc]
    rw [List.getElem?_append_right (by omega : ctx.length ≤ ctx.length + 1)]
    simp

/-- C2 counterexample: `complete_task` on an absent task raises
`"Task 7 not found or access denied."`; the record and the tool-role
context message carry that raw text verbatim, not the Error Translator's
output (which for this error would be the not-found user string). -/
theorem claim2_counterexample :
    (runCalls empty_store demo_env [] 1 "" [c2_call] []).records
      = [{ tool := "complete_task", parameters := [("task_id", Json.str "7")],
           result := Json.obj [("success", Json.bool false),
             ("error", Json.str "Task 7 not found or access denied.")] }] ∧
    (runCalls empty_store demo_env [] 1 "" [c2_call] []).ctx
      = [ CtxMsg.assistantToolCall "" "call_1" "complete_task"
            (some [("task_id", Json.str "7")])
        , CtxMsg.toolResult "call_1" (Json.obj [("success", Json.bool false),
            ("error", Json.str "Task 7 not found or access denied.")]) ] ∧
    translate_mcp_error "Task 7 not found or access denied."
        "Task 7 not found or access denied."
      = "I couldn't find the task you're looking for." ∧
    "Task 7 not found or access denied." ≠ "I couldn't find the task you're looking for." :=
  ⟨rfl, rfl, rfl, by decide⟩

/-- C2 witness: the amended raw-error recording at the concrete failing
`complete_task` call. -/
theorem claim2_witness :
    c2_call.arguments = some [("task_id", Json.str "7")] ∧
    execute_tool_inner empty_store demo_env "complete_task"
        [("task_id", Json.str "7")] 1
      = Except.error (PyError.valueError "Task 7 not found or access denied.") ∧
    ((runCalls empty_store demo_env [] 1 "" [c2_call] []).records[(0:Nat)]?
      = some (ToolInvocationRecord.mk "complete_task" [("task_id", Json.str "7")]
          (errorResult "Task 7 not found or access denied.")) ∧
     (runCalls empty_store demo_env [] 1 "" [c2_call] []).ctx[(1:Nat)]?
      = some (CtxMsg.toolResult "call_1"
          (errorResult "Task 7 not found or access denied.")) ∧
     errorResult "Task 7 not found or access denied."
      = Json.obj [("success", Json.bool false),
          ("error", Json.str "Task 7 not found or access denied.")]) :=
  ⟨rfl, rfl,
   claim2_raw_error_recorded empty_store demo_env [] 1 "" c2_call
     [("task_id", Json.str "7")] [] []
     (PyError.valueError "Task 7 not found or access denied.") rfl rfl⟩

theorem find?_append_some {p : α → Bool} {l : List α} {x : α} (l' : List α)
    (h : l.find? p = some x) : (l ++ l').find? p = some x := by
  induction l with
  | nil => simp [List.find?] at h
  | cons y ys ih =>
    by_cases hy : p y
    · rw [List.find?_cons_of_pos _ hy] at h
      cases h
      simp only [List.cons_append]
      rw [List.find?_cons_of_pos _ hy]
    · rw [List.find?_cons_of_neg _ hy] at h
      simp only [List.cons_append]
      rw [List.find?_cons_of_neg _ hy]
      exact ih h

theorem find?_append_singleton_isSome {p : α → Bool} {a : α} (l : List α)
    (h : p a = true) : ∃ x, (l ++ [a]).find? p = some x := by
  cases hf : l.find? p with
  | some x => exact ⟨x, find?_append_some [a] hf⟩
  | none =>
    refine ⟨a, ?_⟩
    rw [find?_append_none hf, List.find?_cons_of_pos _ h]

theorem length_dropWhile_le (p : α → Bool) (l : List α) :
    (l.dropWhile p).length ≤ l.length := by
  induction l with
  | nil => simp
  | cons x xs ih =>
    by_cases h : p x
    · simp only [List.dropWhile, h]
      exact le_trans ih (by simp)
    · simp [List.dropWhile, h]

theorem pyStrip_length_le (s : String) : (pyStrip s).length ≤ s.length :=
  calc (pyStrip s).length
      = ((s.data.dropWhile isSpaceChar).reverse.dropWhile isSpaceChar).reverse.length := rfl
    _ = ((s.data.dropWhile isSpaceChar).reverse.dropWhile isSpaceChar).length := by
        rw [List.length_reverse]
    _ ≤ (s.data.dropWhile isSpaceChar).reverse.length := length_dropWhile_le _ _
    _ = (s.data.dropWhile isSpaceChar).length := by rw [List.length_reverse]
    _ ≤ s.data.length := length_dropWhile_le _ _
    _ = s.length := rfl

/-- The user message persisted by `send_message_core` survives to the final
store for every agent outcome, including agent failure. -/
theorem send_message_core_durable (s : Store) (env : Env) (cid : ConvId)
    (message : String) (uid : UserId)
    (llm : List CtxMsg → ModelMessage) (llmf : List CtxMsg → Option String)
    (hv1 : pyStrip message ≠ "") (hv2 : message.length ≤ 5000)
    (conv : Conversation)
    (hconv : ConversationService.get_conversation s cid uid = some conv) :
    ∃ m : Message, m.role = MessageRole.user ∧ m.content = pyStrip message ∧
      m ∈ ((send_message_core s env cid message uid llm llmf).1).msgs := by
  have h2 : (pyStrip message).length ≤ 50000 :=
    le_trans (pyStrip_length_le message) (le_trans hv2 (by norm_num))
  unfold send_message_core
  dsimp only
  rw [add_message_ok s cid uid MessageRole.user message none _ _ _ conv hconv hv1 h2]
  dsimp only
  set m := insertedMessage cid uid MessageRole.user message none
    ((env.takeId).1) (((env.takeId).2.takeTime).1) with hm
  set s1 : Store := { s with
      msgs := s.msgs ++ [m],
      convs := (updateFirst (fun c => c.id == cid && c.user_id == uid)
        (fun c => { c with updated_at := (((env.takeId).2.takeTime).2.takeTime).1 })
        s.convs) } with hs1
  refine ⟨m, rfl, rfl, ?_⟩
  have hmem1 : m ∈ s1.msgs := by
    rw [hs1]
    simp
  rcases hP : process_user_message s1 (((env.takeId).2.takeTime).2.takeTime).2 message
      (ConversationService.get_conversation_messages s cid 100 0) uid llm llmf
    with ⟨s2, env2, ar⟩
  have hmsgs2 : s2.msgs = s1.msgs := by
    have h := process_user_message_msgs s1 (((env.takeId).2.takeTime).2.takeTime).2 message
      (ConversationService.get_conversation_messages s cid 100 0) uid llm llmf
    rw [hP] at h
    exact h
  cases ar with
  | error e =>
    dsimp only
    rw [hmsgs2]
    exact hmem1
  | ok agent_result =>
    dsimp only
    rcases hA : ConversationService.add_message s2 cid uid MessageRole.assistant
        agent_result.content
        (if agent_result.tool_calls.isEmpty = true then none
         else some (Json.obj
           [("calls", Json.arr (List.map record_to_json agent_result.tool_calls))]))
        ((env2.takeId).1) (((env2.takeId).2.takeTime).1)
        ((((env2.takeId).2.takeTime).2.takeTime).1)
      with ⟨s3, r2⟩
    have hext : ∃ tl, s3.msgs = s2.msgs ++ tl := by
      have h := add_message_msgs_extends s2 cid uid MessageRole.assistant
        agent_result.content
        (if agent_result.tool_calls.isEmpty = true then none
         else some (Json.obj
           [("calls", Json.arr (List.map record_to_json agent_result.tool_calls))]))
        ((env2.takeId).1) (((env2.takeId).2.takeTime).1)
        ((((env2.takeId).2.takeTime).2.takeTime).1)
      rw [hA] at h
      exact h
    obtain ⟨tl, htl⟩ := hext
    have hmem3 : m ∈ s3.msgs := by
      rw [htl, hmsgs2]
      exact List.mem_append_left _ hmem1
    cases r2 with
    | error e => exact hmem3
    | ok am => exact hmem3

/-- C5 (confirmed): for every chat request passing validation (and whose
conversation resolution succeeds), the inbound user message is persisted
before the Orchestrator is invoked, so it is present in the final store for
every agent behaviour — including agents that raise. -/
theorem claim5_user_message_durable (s : Store) (env : Env)
    (conversation_id : Option ConvId) (message : String) (uid : UserId)
    (llm : List CtxMsg → ModelMessage) (llmf : List CtxMsg → Option String)
    (hv1 : pyStrip message ≠ "") (hv2 : message.length ≤ 5000)
    (hres : ∀ cid, conversation_id = some cid →
      ConversationService.verify_user_owns_conversation s cid uid = true) :
    ∃ m : Message, m.role = MessageRole.user ∧ m.content = pyStrip message ∧
      m ∈ ((send_message s env conversation_id message uid llm llmf).1).msgs := by
  unfold send_message
  dsimp only
  rw [if_neg (by simpa using hv1), if_neg (by omega)]
  cases conversation_id with
  | some cid =>
    dsimp only
    rw [if_pos (hres cid rfl)]
    have hv := hres cid rfl
    unfold ConversationService.verify_user_owns_conversation at hv
    rw [Option.isSome_iff_exists] at hv
    obtain ⟨conv, hconv⟩ := hv
    exact send_message_core_durable s env cid message uid llm llmf hv1 hv2 conv hconv
  | none =>
    dsimp only
    unfold ConversationService.create_conversation
    dsimp only
    have hex := find?_append_singleton_isSome (a :=
      { id := (env.takeId).1, user_id := uid
      , title := some (if message.length > 50 then pyTake message 50 ++ "..." else message)
      , created_at := ((env.takeId).2.takeTime).1
      , updated_at := (((env.takeId).2.takeTime).2.takeTime).1 })
      (p := fun c => c.id == (env.takeId).1 && c.user_id == uid) s.convs (by simp)
    obtain ⟨conv, hconv⟩ := hex
    exact send_message_core_durable _ _ _ message uid llm llmf hv1 hv2 conv hconv

/-- C5 witness: a concrete request whose agent raises (malformed tool-call
arguments) still leaves the user's message in the final store; the request
itself is rejected — the raised `ValueError` surfaces as HTTP 400 — yet the
message is durable. -/
theorem claim5_witness :
    pyStrip "hello" ≠ "" ∧ ("hello".length ≤ 5000) ∧
    ConversationService.verify_user_owns_conversation c5_store 1 1 = true ∧
    (∃ m : Message, m.role = MessageRole.user ∧ m.content = pyStrip "hello" ∧
      m ∈ ((send_message c5_store c5_env (some 1) "hello" 1
        c5_llm_fail done_llm_final).1).msgs) ∧
    (send_message c5_store c5_env (some 1) "hello" 1 c5_llm_fail done_llm_final).2
      = Except.error { status := 400, detail := "Expecting value: line 1 column 1 (char 0)" } :=
  ⟨by decide, by decide, rfl,
   claim5_user_message_durable c5_store c5_env (some 1) "hello" 1
     c5_llm_fail done_llm_final (by decide) (by decide)
     (fun cid h => by cases h; rfl),
   rfl⟩

/-- C8 (amended): conversation-ownership failure is reported the same way
for a foreign-owned conversation and for a nonexistent one, but differently
per endpoint: `POST /chat` rejects with 404 "Conversation not found or
access denied" in both cases, while `GET /chat/{id}` rejects with 403
"Access denied" in both cases (its 404 branch is unreachable).  Neither
endpoint distinguishes existence, and the two endpoints disagree with each
other. -/
theorem claim8_ownership_status_codes (s : Store) (env : Env) (uid : UserId)
    (cid : ConvId) (llm : List CtxMsg → ModelMessage)
    (llmf : List CtxMsg → Option String)
    (hnone : ConversationService.get_conversation s cid uid = none) :
    (send_message s env (some cid) "hello" uid llm llmf).2
      = Except.error { status := 404, detail := "Conversation not found or access denied" } ∧
    get_conversation_detail s cid uid 100 0
      = Except.error { status := 403, detail := "Access denied: You do not own this conversation" } := by
  have hv : ConversationService.verify_user_owns_conversation s cid uid = false := by
    unfold ConversationService.verify_user_owns_conversation
    rw [hnone]
    rfl
  constructor
  · unfold send_message
    dsimp only
    rw [if_neg (by decide), if_neg (by decide)]
    try dsimp only
    rw [if_neg (by simp [hv])]
  · unfold get_conversation_detail
    rw [if_pos (by simp [hv])]

/-- C8 counterexample: with conversation 1 owned by user 2 and no
conversation 99, user 1's `POST /chat` naming the existing-but-foreign
conversation yields 404 (the claim demands 403 there), and `GET /chat/99`
on the nonexistent conversation yields 403 (the claim demands 404 there). -/
theorem claim8_inconsistent_codes :
    (send_message c8_store demo_env (some 1) "hello" 1 noop_llm done_llm_final).2
      = Except.error { status := 404, detail := "Conversation not found or access denied" } ∧
    get_conversation_detail c8_store 1 1 100 0
      = Except.error { status := 403, detail := "Access denied: You do not own this conversation" } ∧
    get_conversation_detail c8_store 99 1 100 0
      = Except.error { status := 403, detail := "Access denied: You do not own this conversation" } ∧
    (404 : Nat) ≠ 403 :=
  ⟨rfl, rfl, rfl, by decide⟩

/-- C8 witness: the amended uniform-per-endpoint behaviour at a concrete
foreign-owned conversation. -/
theorem claim8_witness :
    ConversationService.get_conversation c8_store 1 1 = none ∧
    ((send_message c8_store demo_env (some 1) "hello" 1 noop_llm done_llm_final).2
        = Except.error { status := 404, detail := "Conversation not found or access denied" } ∧
      get_conversation_detail c8_store 1 1 100 0
        = Except.error { status := 403, detail := "Access denied: You do not own this conversation" }) :=
  ⟨rfl, claim8_ownership_status_codes c8_store demo_env 1 1 noop_llm done_llm_final rfl⟩

end TodoApp
